import Mathlib

/-!
Verification development for the Blind Surfers audio runner.

The repository ships two variants of the game:
* the package `blind_surfers/` (`models.py`, `systems.py`, `audio.py`,
  `config.py`, `game.py`) — the current build, and
* the legacy monolith `blind_surfers.py` — an earlier single-file build.

Both are embedded shallowly below.  Python floats are modelled as `ℚ`
(every constant appearing in the code is an exact decimal and the
arithmetic involved is linear), Python ints as `ℤ`, dicts as ordered
association lists with unique keys, and the audio/speech side effects as
an append-only event log recording the calls the game makes into the
sound manager and the text-to-speech wrapper.
-/

namespace BlindSurfers

/-- Observable side-effect calls into `SoundManager` / `TTS`. -/
inductive Event where
  | playSound (name : String) (lane : ℤ) (distance : ℚ)
  | startLoop (tag : String) (name : String) (lane : ℤ) (distance : ℚ)
  | stopLoop (tag : String)
  | updateLoop (tag : String) (lane : ℤ) (distance : ℚ)
  | updateLoopPan (tag : String) (pan : ℚ) (distance : ℚ)
  | stopMusic
  | say (text : String)
  deriving DecidableEq, Repr

/-- How many one-shot cues named `name` were played (`play_sound` calls). -/
def countSound (name : String) : List Event → ℕ
  | [] => 0
  | Event.playSound n _ _ :: rest =>
      (if n = name then 1 else 0) + countSound name rest
  | _ :: rest => countSound name rest

/-- How many announcements of `text` were spoken (`tts.say` calls). -/
def countSay (text : String) : List Event → ℕ
  | [] => 0
  | Event.say t :: rest => (if t = text then 1 else 0) + countSay text rest
  | _ :: rest => countSay text rest

/-! ### Association-list model of Python `dict[str, float]`

Python dicts preserve insertion order, have unique keys, overwrite in
place on assignment to an existing key, and append on assignment to a
fresh key; `del` removes the unique entry of a key.  `lfind` models
`d.get(k)` / `k in d`, `lset` models `d[k] = v`. -/

def lfind (k : String) : List (String × ℚ) → Option ℚ
  | [] => none
  | e :: rest => if e.1 = k then some e.2 else lfind k rest

def lset (k : String) (v : ℚ) : List (String × ℚ) → List (String × ℚ)
  | [] => [(k, v)]
  | e :: rest => if e.1 = k then (k, v) :: rest else e :: lset k v rest

/-- `k in d` for the association-list dict model. -/
def lmem (k : String) (L : List (String × ℚ)) : Bool :=
  (lfind k L).isSome

/-! ### `Player` (`blind_surfers/models.py`, identical class in
`blind_surfers.py`) -/

structure Player where
  lane : ℤ
  jumping : Bool
  rolling : Bool
  jump_timer : ℚ
  roll_timer : ℚ
  super_sneakers : Bool
  jetpack : Bool
  hoverboard_active : Bool
  hoverboard_timer : ℚ
  deriving DecidableEq, Repr

/-- `Player.__init__`. -/
def Player.init : Player :=
  { lane := 1, jumping := false, rolling := false, jump_timer := 0,
    roll_timer := 0, super_sneakers := false, jetpack := false,
    hoverboard_active := false, hoverboard_timer := 0 }

def Player.move_left (p : Player) : Player :=
  if p.lane > 0 then { p with lane := p.lane - 1 } else p

def Player.move_right (p : Player) : Player :=
  if p.lane < 2 then { p with lane := p.lane + 1 } else p

def Player.jump (p : Player) (duration : ℚ) : Player :=
  { p with jumping := true, jump_timer := duration }

def Player.roll (p : Player) (duration : ℚ) : Player :=
  { p with rolling := true, roll_timer := duration }

/-- `Player.update(delta_seconds)`: decrement each running timer and drop
the flag once the timer reaches `≤ 0`; the timer value itself is left as
is (it is not clamped to zero). -/
def Player.update (p : Player) (dt : ℚ) : Player :=
  let p1 :=
    if p.jumping then
      let t := p.jump_timer - dt
      { p with jump_timer := t, jumping := ¬ (t ≤ 0) }
    else p
  let p2 :=
    if p1.rolling then
      let t := p1.roll_timer - dt
      { p1 with roll_timer := t, rolling := ¬ (t ≤ 0) }
    else p1
  if p2.hoverboard_active then
    let t := p2.hoverboard_timer - dt
    { p2 with hoverboard_timer := t, hoverboard_active := ¬ (t ≤ 0) }
  else p2

/-- The operations the run loop performs on the player's timers:
`jump` / `roll` key presses and the per-frame `update`. -/
inductive PlayerOp where
  | jump (duration : ℚ)
  | roll (duration : ℚ)
  | update (dt : ℚ)
  deriving DecidableEq, Repr

def applyOp (p : Player) : PlayerOp → Player
  | PlayerOp.jump d => p.jump d
  | PlayerOp.roll d => p.roll d
  | PlayerOp.update dt => p.update dt

def runOps (p : Player) : List PlayerOp → Player
  | [] => p
  | op :: rest => runOps (applyOp p op) rest

/-- Validity of an operation as issued by the game loop: jump/roll
durations come from the (positive) config constants, frame deltas are
non-negative. -/
def opValid : PlayerOp → Prop
  | PlayerOp.jump d => 0 < d
  | PlayerOp.roll d => 0 < d
  | PlayerOp.update dt => 0 ≤ dt

instance : DecidablePred opValid := by
  intro op; cases op <;> simp only [opValid] <;> infer_instance

/-- Flag/timer coherence for the three player countdowns. -/
def timerInv (p : Player) : Prop :=
  (p.jumping = true ↔ 0 < p.jump_timer) ∧
  (p.rolling = true ↔ 0 < p.roll_timer) ∧
  (p.hoverboard_active = true ↔ 0 < p.hoverboard_timer)

instance (p : Player) : Decidable (timerInv p) := by
  unfold timerInv; infer_instance

/-! ### Spatial audio mixer (`blind_surfers/audio.py`, `config.py`) -/

/-- `GameConfig.max_distance`. -/
def max_distance : ℚ := 100

/-- `GameConfig.lane_pan` with the `.get(lane, 0.0)` default. -/
def lane_pan (lane : ℤ) : ℚ :=
  if lane = 0 then -4/5 else if lane = 1 then 0 else if lane = 2 then 4/5 else 0

/-- `SoundManager._pan_to_stereo` (package version, `audio.py`): clamp the
pan to `[-1,1]`, split into per-channel gains, clamp each gain to
`[0,1]`. -/
def pan_to_stereo (pan : ℚ) : ℚ × ℚ :=
  let p := max (-1) (min 1 pan)
  let left := 1 - max 0 p
  let right := 1 + min 0 p
  (max 0 (min 1 left), max 0 (min 1 right))

/-- `SoundManager._distance_to_volume` (package version, `audio.py`):
clamp the distance to `[0, max_distance]`, then linear falloff. -/
def distance_to_volume (distance : ℚ) : ℚ :=
  let d := max 0 (min max_distance distance)
  max 0 (1 - d / max_distance)

/-- The per-channel volumes `play_sound` / `start_loop` / `update_loop`
hand to `channel.set_volume`. -/
def channelVolumes (pan distance sfx : ℚ) : ℚ × ℚ :=
  ((pan_to_stereo pan).1 * (distance_to_volume distance * sfx),
   (pan_to_stereo pan).2 * (distance_to_volume distance * sfx))

/-! ### `WordHunt` (`blind_surfers/systems.py`) -/

structure WordHunt where
  letters : List String
  collected : List String
  deriving DecidableEq, Repr

/-- `WordHunt.next_letter`. -/
def WordHunt.next_letter (w : WordHunt) : String :=
  if w.letters = [] then ""
  else w.letters.getD (w.collected.length % w.letters.length) ""

/-- `WordHunt.collect`: append the letter; when the collected count
reaches the target count, clear progress and signal completion.  (The
code compares only the lengths, never the letters themselves.) -/
def WordHunt.collect (w : WordHunt) (letter : String) : WordHunt × Bool :=
  let c := w.collected ++ [letter]
  if c.length = w.letters.length then ({ w with collected := [] }, true)
  else ({ w with collected := c }, false)

/-! ### `AchievementSystem` (`blind_surfers/systems.py`) -/

/-- The `unlocked` dict of `AchievementSystem`. -/
structure Unlocked where
  highJumper : Bool
  goldDigger : Bool
  marathon : Bool
  deriving DecidableEq, Repr

/-- The `stats` dict of `Game`. -/
structure Stats where
  jumps : ℤ
  total_coins : ℤ
  score : ℤ
  deriving DecidableEq, Repr

/-- `AchievementSystem.check`: fixed priority order, early return on the
first locked achievement whose threshold is met; `unlock` flips the flag
and returns the name. -/
def achievementCheck (u : Unlocked) (stats : Stats) : Option String × Unlocked :=
  if ¬ u.highJumper ∧ stats.jumps ≥ 100 then
    (some "High Jumper", { u with highJumper := true })
  else if ¬ u.goldDigger ∧ stats.total_coins ≥ 5000 then
    (some "Gold Digger", { u with goldDigger := true })
  else if ¬ u.marathon ∧ stats.score ≥ 100000 then
    (some "Marathon", { u with marathon := true })
  else (none, u)

/-! ### `Economy` (`blind_surfers/systems.py`, tables from `config.py`) -/

structure Economy where
  coins : ℤ
  keys : ℤ
  mystery_boxes : ℤ
  powerup_durations : List (String × ℚ)
  deriving DecidableEq, Repr

/-- `EconomyConfig.upgrade_costs` with the `.get(powerup, 0)` lookup:
`none` stands for a kind absent from the dict. -/
def upgrade_costs (powerup : String) : Option ℤ :=
  if powerup = "jetpack" then some 500
  else if powerup = "super_sneakers" then some 400
  else if powerup = "magnet" then some 450
  else if powerup = "multiplier" then some 600
  else if powerup = "hoverboard" then some 700
  else none

/-- `EconomyConfig.mystery_box_cost`. -/
def mystery_box_cost : ℤ := 300

/-- `EconomyConfig.powerup_base_duration`, copied into
`Economy.powerup_durations` by `__post_init__`. -/
def powerup_base_duration : List (String × ℚ) :=
  [("jetpack", 10), ("super_sneakers", 10), ("magnet", 10),
   ("multiplier", 10), ("hoverboard", 30)]

def Economy.init : Economy :=
  { coins := 0, keys := 0, mystery_boxes := 0,
    powerup_durations := powerup_base_duration }

/-- `Economy.buy_upgrade`: look the cost up (default `0`), require both
`coins >= cost` and `cost > 0`, then debit and bump the duration by the
fixed `5.0` increment. -/
def Economy.buy_upgrade (e : Economy) (powerup : String) : Bool × Economy :=
  let cost := (upgrade_costs powerup).getD 0
  if e.coins ≥ cost ∧ cost > 0 then
    (true, { e with
      coins := e.coins - cost,
      powerup_durations :=
        lset powerup ((lfind powerup e.powerup_durations).getD 10 + 5)
          e.powerup_durations })
  else (false, e)

/-- `Economy.buy_mystery_box`. -/
def Economy.buy_mystery_box (e : Economy) : Bool × Economy :=
  if e.coins ≥ mystery_box_cost then
    (true, { e with
      coins := e.coins - mystery_box_cost,
      mystery_boxes := e.mystery_boxes + 1 })
  else (false, e)

/-- `Economy.open_mystery_box` with the random reward made explicit. -/
def Economy.open_mystery_box (e : Economy) (reward : String) : String × Economy :=
  if e.mystery_boxes ≤ 0 then ("None", e)
  else
    let e1 := { e with mystery_boxes := e.mystery_boxes - 1 }
    if reward = "Coins" then (reward, { e1 with coins := e1.coins + 500 })
    else if reward = "Keys" then (reward, { e1 with keys := e1.keys + 1 })
    else (reward, e1)

/-! ### The package `Game` (`blind_surfers/game.py`) -/

inductive GameState where
  | MENU
  | RUNNING
  | GAME_OVER
  deriving DecidableEq, Repr

structure Obstacle where
  lane : ℤ
  distance : ℚ
  kind : String
  height : String
  active : Bool
  sound_tag : Option String
  honk_played : Bool
  deriving DecidableEq, Repr

structure PowerUp where
  lane : ℤ
  distance : ℚ
  kind : String
  active : Bool
  deriving DecidableEq, Repr

structure LetterCollectible where
  lane : ℤ
  distance : ℚ
  letter : String
  active : Bool
  deriving DecidableEq, Repr

structure CoinCollectible where
  lane : ℤ
  distance : ℚ
  active : Bool
  deriving DecidableEq, Repr

/-- The mutable fields of `Game` that the embedded operations touch,
plus the side-effect log. -/
structure GState where
  state : GameState
  player : Player
  score : ℤ
  multiplier : ℤ
  speed : ℚ
  economy : Economy
  stats : Stats
  obstacles : List Obstacle
  coins : List CoinCollectible
  letters : List LetterCollectible
  word_hunt : WordHunt
  season_tokens : ℤ
  active_powerups : List (String × ℚ)
  loops : List String
  events : List Event
  deriving DecidableEq, Repr

/-- `SoundManager.play_sound`: record the cue request. -/
def playSoundG (g : GState) (name : String) (lane : ℤ) (distance : ℚ) : GState :=
  { g with events := g.events ++ [Event.playSound name lane distance] }

/-- `TTS.say`. -/
def sayG (g : GState) (text : String) : GState :=
  { g with events := g.events ++ [Event.say text] }

/-- `SoundManager.start_loop`: no-op when the tag is already live. -/
def startLoopG (g : GState) (tag name : String) (lane : ℤ) (distance : ℚ) :
    GState :=
  if g.loops.contains tag then g
  else { g with
    loops := g.loops ++ [tag],
    events := g.events ++ [Event.startLoop tag name lane distance] }

/-- `SoundManager.stop_loop`: no-op when the tag is absent. -/
def stopLoopG (g : GState) (tag : String) : GState :=
  if g.loops.contains tag then
    { g with
      loops := g.loops.erase tag,
      events := g.events ++ [Event.stopLoop tag] }
  else g

/-- `SoundManager.update_loop`: recompute gains for a live tag. -/
def updateLoopG (g : GState) (tag : String) (lane : ℤ) (distance : ℚ) :
    GState :=
  if g.loops.contains tag then
    { g with events := g.events ++ [Event.updateLoop tag lane distance] }
  else g

/-- `SoundManager.update_loop_with_pan`. -/
def updateLoopPanG (g : GState) (tag : String) (pan distance : ℚ) : GState :=
  if g.loops.contains tag then
    { g with events := g.events ++ [Event.updateLoopPan tag pan distance] }
  else g

def stopMusicG (g : GState) : GState :=
  { g with events := g.events ++ [Event.stopMusic] }

/-- `Game.handle_collision`: jetpack pass-through, else single-use
hoverboard shield, else game over (with the key-continue hint iff the
player holds a key). -/
def handle_collision (g : GState) (obstacle : Obstacle) : GState :=
  if g.player.jetpack then g
  else if g.player.hoverboard_active then
    playSoundG { g with player := { g.player with hoverboard_active := false } }
      "hoverboard_break" obstacle.lane 0
  else
    let g1 := { g with state := GameState.GAME_OVER }
    let g2 := stopMusicG (playSoundG g1 "crash" obstacle.lane 0)
    let g3 := sayG g2 ("Game Over. Score: " ++ toString g.score)
    if g3.economy.keys > 0 then
      sayG g3 "Press K to use a key and continue"
    else g3

/-- `Game.collect_coin`. -/
def collect_coin (g : GState) (lane : ℤ) : GState :=
  playSoundG
    { g with
      economy := { g.economy with coins := g.economy.coins + 1 },
      stats := { g.stats with total_coins := g.stats.total_coins + 1 } }
    "coin_collect" lane 0

/-- `Game.activate_powerup`: duration comes from the economy's
(upgradeable) duration table with default `10.0`. -/
def activate_powerup (g : GState) (powerup : PowerUp) : GState :=
  let duration := (lfind powerup.kind g.economy.powerup_durations).getD 10
  let g1 :=
    if powerup.kind = "jetpack" then
      startLoopG
        { g with
          player := { g.player with jetpack := true },
          active_powerups := lset "jetpack" duration g.active_powerups }
        "jetpack" "jetpack_loop" 1 0
    else if powerup.kind = "super_sneakers" then
      { g with
        player := { g.player with super_sneakers := true },
        active_powerups := lset "super_sneakers" duration g.active_powerups }
    else if powerup.kind = "magnet" then
      startLoopG
        { g with active_powerups := lset "magnet" duration g.active_powerups }
        "magnet" "magnet_loop" 1 0
    else if powerup.kind = "multiplier" then
      playSoundG
        { g with
          multiplier := 2,
          active_powerups := lset "multiplier" duration g.active_powerups }
        "multiplier_on" 1 0
    else if powerup.kind = "hoverboard" then
      playSoundG
        { g with
          player := { g.player with
            hoverboard_active := true, hoverboard_timer := duration } }
        "hoverboard_on" 1 0
    else if powerup.kind = "season_token" then
      sayG { g with season_tokens := g.season_tokens + 1 }
        "Season token collected"
    else g
  playSoundG g1 "powerup_collect" powerup.lane 0

/-- The kind-specific teardown run for each expired ledger entry in
`Game.update_powerups`. -/
def teardown (g : GState) (kind : String) : GState :=
  if kind = "jetpack" then
    stopLoopG { g with player := { g.player with jetpack := false } } "jetpack"
  else if kind = "super_sneakers" then
    { g with player := { g.player with super_sneakers := false } }
  else if kind = "magnet" then stopLoopG g "magnet"
  else if kind = "multiplier" then { g with multiplier := 1 }
  else g

/-- Every ledger value after the `remaining - delta_seconds` writeback. -/
def sweepVals (L : List (String × ℚ)) (dt : ℚ) : List (String × ℚ) :=
  L.map (fun e => (e.1, e.2 - dt))

/-- The `expired` list collected by `Game.update_powerups`. -/
def expiredOf (L : List (String × ℚ)) (dt : ℚ) : List String :=
  ((sweepVals L dt).filter (fun e => decide (e.2 ≤ 0))).map Prod.fst

/-- `Game.update_powerups`: decrement every entry, delete the entries
that reached `≤ 0`, and run each deleted kind's teardown once. -/
def update_powerups (g : GState) (dt : ℚ) : GState :=
  let dec := sweepVals g.active_powerups dt
  let g1 := { g with active_powerups := dec.filter (fun e => !decide (e.2 ≤ 0)) }
  (expiredOf g.active_powerups dt).foldl teardown g1

/-- The per-frame audio block of the `update_obstacles` loop body
(`game.py` lines 215-224): refresh the obstacle's looping cue and play
the one-time train honk when the train is close. -/
def obsAudioStage (g : GState) (ob1 : Obstacle) : GState × Obstacle :=
  match ob1.sound_tag with
  | none => (g, ob1)
  | some tag =>
    if ob1.kind = "train" then
      let pan := lane_pan ob1.lane
      let progress := 1 - ob1.distance / max_distance
      let ga := updateLoopPanG g tag (pan * progress) ob1.distance
      if ob1.distance ≤ 20 ∧ ¬ ob1.honk_played then
        (playSoundG ga "train_honk" ob1.lane ob1.distance,
         { ob1 with honk_played := true })
      else (ga, ob1)
    else (updateLoopG g tag ob1.lane ob1.distance, ob1)

/-- One iteration of the `Game.update_obstacles` loop body. -/
def stepObstacle (g : GState) (ob : Obstacle) (dt : ℚ) : GState × Obstacle :=
  if ¬ ob.active then (g, ob)
  else
    let ob1 := { ob with distance := ob.distance - g.speed * dt }
    let r := obsAudioStage g ob1
    if r.2.distance ≤ 0 then
      let ob3 := { r.2 with active := false }
      let g2 : GState :=
        match ob3.sound_tag with
        | none => r.1
        | some tag => stopLoopG r.1 tag
      if ob3.lane = g2.player.lane then
        if ob3.height = "low" ∧ g2.player.jumping then (g2, ob3)
        else if ob3.height = "high" ∧ g2.player.rolling then (g2, ob3)
        else (handle_collision g2 ob3, ob3)
      else (g2, ob3)
    else (r.1, r.2)

/-- `Game.update_obstacles`: run the loop body over the list, then keep
only the still-active obstacles. -/
def update_obstacles (g : GState) (dt : ℚ) : GState :=
  let r := g.obstacles.foldl
    (fun (acc : GState × List Obstacle) ob =>
      let s := stepObstacle acc.1 ob dt
      (s.1, acc.2 ++ [s.2]))
    (g, ([] : List Obstacle))
  { r.1 with obstacles := r.2.filter (fun o => o.active) }

/-- One iteration of the `Game.update_coins` loop body: on arrival the
coin is collected when its lane matches the player's or a `magnet`
entry is in the active power-up ledger. -/
def stepCoin (g : GState) (coin : CoinCollectible) (dt : ℚ) :
    GState × CoinCollectible :=
  if ¬ coin.active then (g, coin)
  else
    let c1 := { coin with distance := coin.distance - g.speed * dt }
    if c1.distance ≤ 0 then
      let c2 := { c1 with active := false }
      if c2.lane = g.player.lane ∨ lmem "magnet" g.active_powerups then
        (collect_coin g c2.lane, c2)
      else (g, c2)
    else (g, c1)

/-- `Game.update_coins`. -/
def update_coins (g : GState) (dt : ℚ) : GState :=
  let r := g.coins.foldl
    (fun (acc : GState × List CoinCollectible) c =>
      let s := stepCoin acc.1 c dt
      (s.1, acc.2 ++ [s.2]))
    (g, ([] : List CoinCollectible))
  { r.1 with coins := r.2.filter (fun c => c.active) }

/-- One iteration of the `Game.update_letters` loop body. -/
def stepLetter (g : GState) (l : LetterCollectible) (dt : ℚ) :
    GState × LetterCollectible :=
  if ¬ l.active then (g, l)
  else
    let l1 := { l with distance := l.distance - g.speed * dt }
    if l1.distance ≤ 0 then
      let l2 := { l1 with active := false }
      if l2.lane = g.player.lane then
        let r := g.word_hunt.collect l2.letter
        let g1 := sayG { g with word_hunt := r.1 }
          ("You collected " ++ l2.letter ++ "!")
        if r.2 then
          let g2 := sayG g1 "Word hunt complete"
          ({ g2 with
            economy := { g2.economy with coins := g2.economy.coins + 500 } },
           l2)
        else (g1, l2)
      else (g, l2)
    else (g, l1)

/-- `Game.update_letters`. -/
def update_letters (g : GState) (dt : ℚ) : GState :=
  let r := g.letters.foldl
    (fun (acc : GState × List LetterCollectible) l =>
      let s := stepLetter acc.1 l dt
      (s.1, acc.2 ++ [s.2]))
    (g, ([] : List LetterCollectible))
  { r.1 with letters := r.2.filter (fun l => l.active) }

/-- Python `int(q)`: truncation toward zero. -/
def pyInt (q : ℚ) : ℤ := if q < 0 then -Int.floor (-q) else Int.floor q

/-- `GameplayConfig.score_rate`. -/
def score_rate : ℤ := 10

/-- `Game.update_score`. -/
def update_score (g : GState) (dt : ℚ) : GState :=
  let s := g.score + pyInt ((score_rate : ℚ) * g.multiplier * dt * 60)
  { g with score := s, stats := { g.stats with score := s } }

/-- `Game.continue_run_with_key`: no-op without a key; otherwise consume
one key, resume the run, and grant a hoverboard with the hard-coded
`3.0`-second timer. -/
def continue_run_with_key (g : GState) : GState :=
  if g.economy.keys ≤ 0 then g
  else
    sayG
      (playSoundG
        { g with
          economy := { g.economy with keys := g.economy.keys - 1 },
          state := GameState.RUNNING,
          player := { g.player with
            hoverboard_active := true, hoverboard_timer := 3 } }
        "hoverboard_on" 1 0)
      "Continuing run"

/-- Iterated expiry sweeps (`update_powerups` once per frame). -/
def runSweeps (g : GState) : List ℚ → GState
  | [] => g
  | dt :: rest => runSweeps (update_powerups g dt) rest

/-- The kinds torn down across a sequence of expiry sweeps, in order. -/
def allExpired (g : GState) : List ℚ → List String
  | [] => []
  | dt :: rest =>
      expiredOf g.active_powerups dt ++ allExpired (update_powerups g dt) rest

/-- Ledger/effect coherence: a ledger entry for a kind whose effect is a
player flag (or the score multiplier) exists iff that effect is active;
ledger keys are unique (a Python dict guarantees this). -/
def ledgerInv (g : GState) : Prop :=
  (g.player.jetpack = true ↔ lmem "jetpack" g.active_powerups = true) ∧
  (g.player.super_sneakers = true ↔
    lmem "super_sneakers" g.active_powerups = true) ∧
  (g.multiplier = 2 ↔ lmem "multiplier" g.active_powerups = true) ∧
  (g.multiplier = 1 ∨ g.multiplier = 2) ∧
  (g.active_powerups.map Prod.fst).Nodup

instance (g : GState) : Decidable (ledgerInv g) := by
  unfold ledgerInv; infer_instance

/-! ### The legacy monolith build (`blind_surfers.py`)

The single-file build predates the package.  It has no coin entities at
all: its only coin source during a run is the magnet branch of
`Game.update`, which collects one coin per frame while a `magnet` entry
is in the ledger.  Randomness (spawn rolls and `random.choice` picks) is
passed in explicitly. -/

namespace Legacy

structure LObstacle where
  lane : ℤ
  distance : ℚ
  kind : String
  height : String
  active : Bool
  deriving DecidableEq, Repr

structure LPowerUp where
  lane : ℤ
  distance : ℚ
  kind : String
  active : Bool
  deriving DecidableEq, Repr

structure LLetter where
  lane : ℤ
  distance : ℚ
  letter : String
  active : Bool
  deriving DecidableEq, Repr

structure LEconomy where
  coins : ℤ
  keys : ℤ
  mystery_boxes : ℤ
  powerup_durations : List (String × ℚ)
  deriving DecidableEq, Repr

/-- The mutable fields of the legacy `Game`. -/
structure LState where
  running : Bool
  in_game : Bool
  game_over : Bool
  score : ℤ
  multiplier : ℤ
  speed : ℚ
  stats : Stats
  obstacles : List LObstacle
  powerups : List LPowerUp
  letters : List LLetter
  word_hunt : List String
  word_progress : List String
  season_tokens : ℤ
  active_powerups : List (String × ℚ)
  economy : LEconomy
  player : Player
  unlocked : Unlocked
  loops : List String
  events : List Event
  deriving DecidableEq, Repr

def playSoundL (g : LState) (name : String) (lane : ℤ) (distance : ℚ) :
    LState :=
  { g with events := g.events ++ [Event.playSound name lane distance] }

def sayL (g : LState) (text : String) : LState :=
  { g with events := g.events ++ [Event.say text] }

/-- Legacy `SoundManager.play_loop`: loops are keyed by sound name. -/
def playLoopL (g : LState) (name : String) (lane : ℤ) : LState :=
  if g.loops.contains name then g
  else { g with
    loops := g.loops ++ [name],
    events := g.events ++ [Event.startLoop name name lane 0] }

def stopLoopL (g : LState) (name : String) : LState :=
  if g.loops.contains name then
    { g with
      loops := g.loops.erase name,
      events := g.events ++ [Event.stopLoop name] }
  else g

def stopMusicL (g : LState) : LState :=
  { g with events := g.events ++ [Event.stopMusic] }

/-- Legacy `Game.collect_coin`. -/
def collect_coin (g : LState) (lane : ℤ) : LState :=
  playSoundL
    { g with
      economy := { g.economy with coins := g.economy.coins + 1 },
      stats := { g.stats with total_coins := g.stats.total_coins + 1 } }
    "coin_collect" lane 0

/-- Legacy `Game.handle_collision` (no key-continue hint in this build). -/
def handle_collision (g : LState) (obstacle : LObstacle) : LState :=
  if g.player.jetpack then g
  else if g.player.hoverboard_active then
    playSoundL { g with player := { g.player with hoverboard_active := false } }
      "hoverboard_break" obstacle.lane 0
  else
    let g1 := { g with game_over := true, in_game := false }
    sayL (stopMusicL (playSoundL g1 "crash" obstacle.lane 0))
      ("Game Over. Score: " ++ toString g.score)

/-- Legacy `Game.activate_powerup`. -/
def activate_powerup (g : LState) (powerup : LPowerUp) : LState :=
  let duration := (lfind powerup.kind g.economy.powerup_durations).getD 10
  let g1 :=
    if powerup.kind = "jetpack" then
      playLoopL
        { g with
          player := { g.player with jetpack := true },
          active_powerups := lset "jetpack" duration g.active_powerups }
        "jetpack_loop" 1
    else if powerup.kind = "super_sneakers" then
      { g with
        player := { g.player with super_sneakers := true },
        active_powerups := lset "super_sneakers" duration g.active_powerups }
    else if powerup.kind = "magnet" then
      playLoopL
        { g with active_powerups := lset "magnet" duration g.active_powerups }
        "magnet_loop" 1
    else if powerup.kind = "multiplier" then
      playSoundL
        { g with
          multiplier := 2,
          active_powerups := lset "multiplier" duration g.active_powerups }
        "multiplier_on" 1 0
    else if powerup.kind = "hoverboard" then
      playSoundL
        { g with
          player := { g.player with
            hoverboard_active := true, hoverboard_timer := duration } }
        "hoverboard_on" 1 0
    else if powerup.kind = "season_token" then
      sayL { g with season_tokens := g.season_tokens + 1 }
        "Season token collected"
    else g
  playSoundL g1 "powerup_collect" powerup.lane 0

def teardownL (g : LState) (kind : String) : LState :=
  if kind = "jetpack" then
    stopLoopL { g with player := { g.player with jetpack := false } }
      "jetpack_loop"
  else if kind = "super_sneakers" then
    { g with player := { g.player with super_sneakers := false } }
  else if kind = "magnet" then stopLoopL g "magnet_loop"
  else if kind = "multiplier" then { g with multiplier := 1 }
  else g

/-- Legacy `Game.update_powerups` (same sweep as the package, with the
legacy loop names). -/
def update_powerups (g : LState) (dt : ℚ) : LState :=
  let dec := sweepVals g.active_powerups dt
  let g1 := { g with active_powerups := dec.filter (fun e => !decide (e.2 ≤ 0)) }
  (expiredOf g.active_powerups dt).foldl teardownL g1

/-- One iteration of the legacy `Game.update_obstacles` loop body (this
build replays one-shot cues every frame instead of looping ones). -/
def stepObstacleL (g : LState) (ob : LObstacle) (dt : ℚ) : LState × LObstacle :=
  if ¬ ob.active then (g, ob)
  else
    let ob1 := { ob with distance := ob.distance - g.speed * dt }
    let g1 :=
      if ob1.kind = "barrier" then
        playSoundL g (if ob1.height = "low" then "barrier_low" else "barrier_high")
          ob1.lane ob1.distance
      else
        let ga := playSoundL g "train_rumble" 1 ob1.distance
        let pan_lane : ℤ := if ob1.lane = 0 then 0 else 2
        playSoundL ga "train_honk" pan_lane ob1.distance
    if ob1.distance ≤ 0 then
      let ob2 := { ob1 with active := false }
      if ob2.lane = g1.player.lane then
        if ob2.height = "low" ∧ g1.player.jumping then (g1, ob2)
        else if ob2.height = "high" ∧ g1.player.rolling then (g1, ob2)
        else (handle_collision g1 ob2, ob2)
      else (g1, ob2)
    else (g1, ob1)

def update_obstacles (g : LState) (dt : ℚ) : LState :=
  let r := g.obstacles.foldl
    (fun (acc : LState × List LObstacle) ob =>
      let s := stepObstacleL acc.1 ob dt
      (s.1, acc.2 ++ [s.2]))
    (g, ([] : List LObstacle))
  { r.1 with obstacles := r.2.filter (fun o => o.active) }

/-- One iteration of the legacy `Game.update_powerup_objects` loop body. -/
def stepPowerUpL (g : LState) (p : LPowerUp) (dt : ℚ) : LState × LPowerUp :=
  if ¬ p.active then (g, p)
  else
    let p1 := { p with distance := p.distance - g.speed * dt }
    if p1.distance ≤ 0 then
      let p2 := { p1 with active := false }
      if p2.lane = g.player.lane then (activate_powerup g p2, p2)
      else (g, p2)
    else (g, p1)

def update_powerup_objects (g : LState) (dt : ℚ) : LState :=
  let r := g.powerups.foldl
    (fun (acc : LState × List LPowerUp) p =>
      let s := stepPowerUpL acc.1 p dt
      (s.1, acc.2 ++ [s.2]))
    (g, ([] : List LPowerUp))
  { r.1 with powerups := r.2.filter (fun p => p.active) }

/-- One iteration of the legacy `Game.update_letters` loop body (this
build does compare the collected letters with the target word). -/
def stepLetterL (g : LState) (l : LLetter) (dt : ℚ) : LState × LLetter :=
  if ¬ l.active then (g, l)
  else
    let l1 := { l with distance := l.distance - g.speed * dt }
    if l1.distance ≤ 0 then
      let l2 := { l1 with active := false }
      if l2.lane = g.player.lane then
        let g1 := sayL { g with word_progress := g.word_progress ++ [l2.letter] }
          ("You collected " ++ l2.letter ++ "!")
        if g1.word_progress = g1.word_hunt then
          let g2 := sayL g1 "Word hunt complete"
          ({ g2 with
            economy := { g2.economy with coins := g2.economy.coins + 500 },
            word_progress := [] }, l2)
        else (g1, l2)
      else (g, l2)
    else (g, l1)

def update_letters (g : LState) (dt : ℚ) : LState :=
  let r := g.letters.foldl
    (fun (acc : LState × List LLetter) l =>
      let s := stepLetterL acc.1 l dt
      (s.1, acc.2 ++ [s.2]))
    (g, ([] : List LLetter))
  { r.1 with letters := r.2.filter (fun l => l.active) }

/-- Legacy `Game.update_score`. -/
def update_score (g : LState) (dt : ℚ) : LState :=
  let s := g.score + pyInt ((10 : ℚ) * g.multiplier * dt * 60)
  { g with score := s, stats := { g.stats with score := s } }

/-- Legacy `Game.spawn_obstacle` with the random picks made explicit. -/
def spawn_obstacle (g : LState) (lane : ℤ) (height kind : String) : LState :=
  let g1 := { g with obstacles := g.obstacles ++
    [{ lane := lane, distance := max_distance, kind := kind,
       height := height, active := true }] }
  if kind = "barrier" then
    playSoundL g1 (if height = "low" then "barrier_low" else "barrier_high")
      lane max_distance
  else playSoundL g1 "train_rumble" 1 max_distance

def spawn_powerup (g : LState) (lane : ℤ) (kind : String) : LState :=
  playSoundL
    { g with powerups := g.powerups ++
      [{ lane := lane, distance := max_distance, kind := kind, active := true }] }
    "powerup_spawn" lane max_distance

def spawn_letter (g : LState) (lane : ℤ) : LState :=
  if g.word_hunt = [] then g
  else
    let letter := g.word_hunt.getD (g.word_progress.length % g.word_hunt.length) ""
    playSoundL
      { g with letters := g.letters ++
        [{ lane := lane, distance := max_distance, letter := letter,
           active := true }] }
      "letter_spawn" lane max_distance

def spawn_season_token (g : LState) (lane : ℤ) : LState :=
  playSoundL
    { g with powerups := g.powerups ++
      [{ lane := lane, distance := max_distance, kind := "season_token",
         active := true }] }
    "season_token" lane max_distance

/-- The explicit outcomes of the frame's random draws: the four
`random.random()` spawn rolls and the `random.choice` picks each spawn
would use. -/
structure Draws where
  r1 : ℚ
  r2 : ℚ
  r3 : ℚ
  r4 : ℚ
  obLane : ℤ
  obHeight : String
  obKind : String
  puLane : ℤ
  puKind : String
  letLane : ℤ
  stLane : ℤ
  deriving DecidableEq, Repr

/-- The achievement check as called from the legacy frame update
(`AchievementSystem.check`; `unlock` plays a cue and announces). -/
def achCheckL (g : LState) : LState :=
  let r := achievementCheck g.unlocked g.stats
  match r.1 with
  | some name =>
      sayL (playSoundL { g with unlocked := r.2 } "achievement_unlock" 1 0)
        ("Achievement unlocked: " ++ name)
  | none => { g with unlocked := r.2 }

/-- Legacy `Game.update`: the per-frame tick.  Lines 619-620 of
`blind_surfers.py` are the second-to-last step: while a `magnet` ledger
entry exists, `collect_coin(player.lane)` runs every frame. -/
def update (g : LState) (dt : ℚ) (dr : Draws) : LState :=
  if ¬ g.in_game then g
  else
    let g1 := { g with player := g.player.update dt }
    let g2 := update_powerups g1 dt
    let g3 := update_obstacles g2 dt
    let g4 := update_powerup_objects g3 dt
    let g5 := update_letters g4 dt
    let g6 := update_score g5 dt
    let g7 := if dr.r1 < 1/50 then spawn_obstacle g6 dr.obLane dr.obHeight dr.obKind else g6
    let g8 := if dr.r2 < 1/100 then spawn_powerup g7 dr.puLane dr.puKind else g7
    let g9 := if dr.r3 < 1/125 then spawn_letter g8 dr.letLane else g8
    let g10 := if dr.r4 < 1/200 then spawn_season_token g9 dr.stLane else g9
    let g11 := if lmem "magnet" g10.active_powerups then
        collect_coin g10 g10.player.lane
      else g10
    achCheckL g11

end Legacy

/-! ## Concrete example states -/

/-- A concrete freshly-started run (`reset_run` leaves the game in this
shape, with the ledger and entity lists empty). -/
def gEx : GState :=
  { state := GameState.RUNNING, player := Player.init, score := 0,
    multiplier := 1, speed := 25, economy := Economy.init,
    stats := { jumps := 0, total_coins := 0, score := 0 },
    obstacles := [], coins := [], letters := [],
    word_hunt := { letters := ["H", "U", "N", "T"], collected := [] },
    season_tokens := 0, active_powerups := [], loops := [], events := [] }

/-- A concrete legacy-build mid-run state: a `magnet` ledger entry with
ten seconds left, no entities of any kind in flight, no coins banked. -/
def lgEx : Legacy.LState :=
  { running := true, in_game := true, game_over := false, score := 0,
    multiplier := 1, speed := 25,
    stats := { jumps := 0, total_coins := 0, score := 0 },
    obstacles := [], powerups := [], letters := [],
    word_hunt := ["H", "U", "N", "T"], word_progress := [],
    season_tokens := 0, active_powerups := [("magnet", 10)],
    economy := { coins := 0, keys := 0, mystery_boxes := 0,
                 powerup_durations := powerup_base_duration },
    player := Player.init,
    unlocked := { highJumper := false, goldDigger := false, marathon := false },
    loops := ["magnet_loop"], events := [] }

/-- A frame of random draws in which every spawn roll misses. -/
def drEx : Legacy.Draws :=
  { r1 := 1, r2 := 1, r3 := 1, r4 := 1, obLane := 0, obHeight := "low",
    obKind := "barrier", puLane := 0, puKind := "jetpack", letLane := 0,
    stLane := 0 }

/-! ## Lemmas about the dict model -/

theorem lfind_eq_none_iff (k : String) (L : List (String × ℚ)) :
    lfind k L = none ↔ k ∉ L.map Prod.fst := by
  induction L with
  | nil => simp [lfind]
  | cons e rest ih =>
    by_cases h : e.1 = k
    · simp [lfind, h]
    · simp [lfind, h, ih, Ne.symm h]

theorem lfind_lset_self (k : String) (v : ℚ) (L : List (String × ℚ)) :
    lfind k (lset k v L) = some v := by
  induction L with
  | nil => simp [lset, lfind]
  | cons e rest ih =>
    by_cases h : e.1 = k
    · simp [lset, h, lfind]
    · simp [lset, h, lfind, ih]

theorem lfind_lset_other (k k' : String) (hk : k' ≠ k) (v : ℚ)
    (L : List (String × ℚ)) : lfind k' (lset k v L) = lfind k' L := by
  induction L with
  | nil =>
    simp only [lset, lfind]
    rw [if_neg (fun hh => hk hh.symm)]
  | cons e rest ih =>
    by_cases h : e.1 = k
    · simp only [lset, h, if_true, lfind]
      rw [if_neg (fun hh => hk hh.symm), if_neg (fun hh => hk hh.symm)]
    · simp only [lset, h, if_false, lfind]
      by_cases h' : e.1 = k'
      · simp [h']
      · simp [h', ih]

theorem lset_keys (k : String) (v : ℚ) (L : List (String × ℚ)) :
    (lset k v L).map Prod.fst =
      if k ∈ L.map Prod.fst then L.map Prod.fst else L.map Prod.fst ++ [k] := by
  induction L with
  | nil => simp [lset]
  | cons e rest ih =>
    by_cases h : e.1 = k
    · simp [lset, h]
    · by_cases hmem : k ∈ rest.map Prod.fst <;>
        simp [lset, h, ih, hmem, Ne.symm h]

theorem lset_nodup (k : String) (v : ℚ) (L : List (String × ℚ))
    (h : (L.map Prod.fst).Nodup) : ((lset k v L).map Prod.fst).Nodup := by
  rw [lset_keys]
  by_cases hmem : k ∈ L.map Prod.fst
  · simpa [hmem] using h
  · simp only [hmem, if_false]
    refine List.Nodup.append h (List.nodup_singleton k) ?_
    intro a ha hb
    simp only [List.mem_singleton] at hb
    exact hmem (hb ▸ ha)

theorem lfind_filter_none (k : String) (p : String × ℚ → Bool)
    (L : List (String × ℚ)) (h : lfind k L = none) :
    lfind k (L.filter p) = none := by
  induction L with
  | nil => simp [lfind]
  | cons e rest ih =>
    simp only [lfind] at h
    by_cases he : e.1 = k
    · simp [he] at h
    · simp only [he, if_false] at h
      by_cases hp : p e
      · simp [List.filter_cons, hp, lfind, he, ih h]
      · simp [List.filter_cons, hp, ih h]

theorem lfind_filter_nodup (k : String) (v : ℚ) (p : String × ℚ → Bool)
    (L : List (String × ℚ)) (hnd : (L.map Prod.fst).Nodup)
    (h : lfind k L = some v) :
    lfind k (L.filter p) = if p (k, v) then some v else none := by
  induction L with
  | nil => simp [lfind] at h
  | cons e rest ih =>
    simp only [List.map_cons, List.nodup_cons] at hnd
    simp only [lfind] at h
    by_cases he : e.1 = k
    · simp only [he, if_true, Option.some.injEq] at h
      have hek : e = (k, v) := Prod.ext he h
      subst hek
      have hrest : lfind k rest = none :=
        (lfind_eq_none_iff k rest).2 hnd.1
      by_cases hp : p (k, v)
      · simp [List.filter_cons, hp, lfind]
      · simp [List.filter_cons, hp, lfind_filter_none k p rest hrest]
    · simp only [he, if_false] at h
      by_cases hp : p e
      · simp [List.filter_cons, hp, lfind, he, ih hnd.2 h]
      · simp [List.filter_cons, hp, ih hnd.2 h]

theorem count_keys_filter_none (k : String) (p : String × ℚ → Bool)
    (L : List (String × ℚ)) (h : lfind k L = none) :
    ((L.filter p).map Prod.fst).count k = 0 := by
  induction L with
  | nil => simp
  | cons e rest ih =>
    simp only [lfind] at h
    by_cases he : e.1 = k
    · simp [he] at h
    · simp only [he, if_false] at h
      by_cases hp : p e
      · simp [List.filter_cons, hp, List.count_cons, ih h, he]
      · simp [List.filter_cons, hp, ih h]

theorem count_keys_filter_some (k : String) (v : ℚ) (p : String × ℚ → Bool)
    (L : List (String × ℚ)) (hnd : (L.map Prod.fst).Nodup)
    (h : lfind k L = some v) :
    ((L.filter p).map Prod.fst).count k = if p (k, v) then 1 else 0 := by
  induction L with
  | nil => simp [lfind] at h
  | cons e rest ih =>
    simp only [List.map_cons, List.nodup_cons] at hnd
    simp only [lfind] at h
    by_cases he : e.1 = k
    · simp only [he, if_true, Option.some.injEq] at h
      have hek : e = (k, v) := Prod.ext he h
      subst hek
      have hrest : lfind k rest = none :=
        (lfind_eq_none_iff k rest).2 hnd.1
      by_cases hp : p (k, v)
      · simp [List.filter_cons, hp, List.count_cons,
          count_keys_filter_none k p rest hrest]
      · simp [List.filter_cons, hp, count_keys_filter_none k p rest hrest]
    · simp only [he, if_false] at h
      by_cases hp : p e
      · simp [List.filter_cons, hp, List.count_cons, ih hnd.2 h, he]
      · simp [List.filter_cons, hp, ih hnd.2 h]

theorem sweepVals_keys (L : List (String × ℚ)) (dt : ℚ) :
    (sweepVals L dt).map Prod.fst = L.map Prod.fst := by
  simp [sweepVals, List.map_map]

theorem lfind_sweepVals (k : String) (L : List (String × ℚ)) (dt : ℚ) :
    lfind k (sweepVals L dt) = (lfind k L).map (fun v => v - dt) := by
  induction L with
  | nil => simp [sweepVals, lfind]
  | cons e rest ih =>
    by_cases he : e.1 = k
    · simp [sweepVals, lfind, he]
    · simp only [sweepVals, List.map_cons, lfind, he, if_false] at ih ⊢
      exact ih

theorem filter_keys_nodup (p : String × ℚ → Bool) (L : List (String × ℚ))
    (hnd : (L.map Prod.fst).Nodup) : ((L.filter p).map Prod.fst).Nodup := by
  have hs : (L.filter p).Sublist L := List.filter_sublist L
  exact (hs.map Prod.fst).nodup hnd

/-! ## Lemmas about the player timers -/

theorem timerInv_init : timerInv Player.init := by
  simp [timerInv, Player.init]

theorem timerInv_applyOp (p : Player) (op : PlayerOp) (hv : opValid op)
    (h : timerInv p) : timerInv (applyOp p op) := by
  obtain ⟨hj, hr, hh⟩ := h
  cases op with
  | jump d =>
    simp only [opValid] at hv
    simp [applyOp, Player.jump, timerInv, hv, hj, hr, hh]
  | roll d =>
    simp only [opValid] at hv
    simp [applyOp, Player.roll, timerInv, hv, hj, hr, hh]
  | update dt =>
    simp only [opValid] at hv
    simp only [applyOp, Player.update]
    by_cases h1 : p.jumping <;> by_cases h2 : p.rolling <;>
      by_cases h3 : p.hoverboard_active <;>
      simp_all [timerInv]

theorem timerInv_runOps (p : Player) (ops : List PlayerOp)
    (hv : ∀ op ∈ ops, opValid op) (h : timerInv p) :
    timerInv (runOps p ops) := by
  induction ops generalizing p with
  | nil => exact h
  | cons op rest ih =>
    exact ih (applyOp p op)
      (fun o ho => hv o (List.mem_cons_of_mem op ho))
      (timerInv_applyOp p op (hv op (List.mem_cons_self op rest)) h)

/-! ## Lemmas about the sound/speech wrappers and the event log -/

theorem countSound_append (name : String) (l1 l2 : List Event) :
    countSound name (l1 ++ l2) = countSound name l1 + countSound name l2 := by
  induction l1 with
  | nil => simp [countSound]
  | cons e rest ih =>
    cases e <;> simp [countSound, ih] <;> ring

theorem countSay_append (text : String) (l1 l2 : List Event) :
    countSay text (l1 ++ l2) = countSay text l1 + countSay text l2 := by
  induction l1 with
  | nil => simp [countSay]
  | cons e rest ih =>
    cases e <;> simp [countSay, ih] <;> ring

theorem playSoundG_fields (g : GState) (n : String) (l : ℤ) (d : ℚ) :
    (playSoundG g n l d).state = g.state ∧
    (playSoundG g n l d).player = g.player ∧
    (playSoundG g n l d).economy = g.economy ∧
    (playSoundG g n l d).active_powerups = g.active_powerups ∧
    (playSoundG g n l d).multiplier = g.multiplier ∧
    (playSoundG g n l d).stats = g.stats := by
  simp [playSoundG]

theorem playSoundG_countSound (g : GState) (n m : String) (l : ℤ) (d : ℚ) :
    countSound m (playSoundG g n l d).events =
      countSound m g.events + (if n = m then 1 else 0) := by
  simp [playSoundG, countSound_append, countSound]

theorem sayG_fields (g : GState) (t : String) :
    (sayG g t).state = g.state ∧
    (sayG g t).player = g.player ∧
    (sayG g t).economy = g.economy ∧
    (sayG g t).active_powerups = g.active_powerups ∧
    (sayG g t).multiplier = g.multiplier ∧
    (sayG g t).stats = g.stats := by
  simp [sayG]

theorem sayG_countSound (g : GState) (t m : String) :
    countSound m (sayG g t).events = countSound m g.events := by
  simp [sayG, countSound_append, countSound]

theorem startLoopG_fields (g : GState) (tag n : String) (l : ℤ) (d : ℚ) :
    (startLoopG g tag n l d).state = g.state ∧
    (startLoopG g tag n l d).player = g.player ∧
    (startLoopG g tag n l d).economy = g.economy ∧
    (startLoopG g tag n l d).active_powerups = g.active_powerups ∧
    (startLoopG g tag n l d).multiplier = g.multiplier ∧
    (startLoopG g tag n l d).stats = g.stats := by
  unfold startLoopG; split <;> simp

theorem startLoopG_countSound (g : GState) (tag n m : String) (l : ℤ) (d : ℚ) :
    countSound m (startLoopG g tag n l d).events = countSound m g.events := by
  unfold startLoopG; split <;> simp [countSound_append, countSound]

theorem stopLoopG_fields (g : GState) (tag : String) :
    (stopLoopG g tag).state = g.state ∧
    (stopLoopG g tag).player = g.player ∧
    (stopLoopG g tag).economy = g.economy ∧
    (stopLoopG g tag).active_powerups = g.active_powerups ∧
    (stopLoopG g tag).multiplier = g.multiplier ∧
    (stopLoopG g tag).stats = g.stats := by
  unfold stopLoopG; split <;> simp

theorem stopLoopG_countSound (g : GState) (tag m : String) :
    countSound m (stopLoopG g tag).events = countSound m g.events := by
  unfold stopLoopG; split <;> simp [countSound_append, countSound]

theorem updateLoopG_fields (g : GState) (tag : String) (l : ℤ) (d : ℚ) :
    (updateLoopG g tag l d).state = g.state ∧
    (updateLoopG g tag l d).player = g.player ∧
    (updateLoopG g tag l d).economy = g.economy ∧
    (updateLoopG g tag l d).active_powerups = g.active_powerups ∧
    (updateLoopG g tag l d).multiplier = g.multiplier ∧
    (updateLoopG g tag l d).stats = g.stats := by
  unfold updateLoopG; split <;> simp

theorem updateLoopG_countSound (g : GState) (tag m : String) (l : ℤ) (d : ℚ) :
    countSound m (updateLoopG g tag l d).events = countSound m g.events := by
  unfold updateLoopG; split <;> simp [countSound_append, countSound]

theorem updateLoopPanG_fields (g : GState) (tag : String) (p d : ℚ) :
    (updateLoopPanG g tag p d).state = g.state ∧
    (updateLoopPanG g tag p d).player = g.player ∧
    (updateLoopPanG g tag p d).economy = g.economy ∧
    (updateLoopPanG g tag p d).active_powerups = g.active_powerups ∧
    (updateLoopPanG g tag p d).multiplier = g.multiplier ∧
    (updateLoopPanG g tag p d).stats = g.stats := by
  unfold updateLoopPanG; split <;> simp

theorem updateLoopPanG_countSound (g : GState) (tag m : String) (p d : ℚ) :
    countSound m (updateLoopPanG g tag p d).events = countSound m g.events := by
  unfold updateLoopPanG; split <;> simp [countSound_append, countSound]

theorem stopMusicG_fields (g : GState) :
    (stopMusicG g).state = g.state ∧
    (stopMusicG g).player = g.player ∧
    (stopMusicG g).economy = g.economy ∧
    (stopMusicG g).active_powerups = g.active_powerups ∧
    (stopMusicG g).multiplier = g.multiplier ∧
    (stopMusicG g).stats = g.stats := by
  simp [stopMusicG]

theorem stopMusicG_countSound (g : GState) (m : String) :
    countSound m (stopMusicG g).events = countSound m g.events := by
  simp [stopMusicG, countSound_append, countSound]

/-- The obstacle audio block leaves every gameplay field untouched, does
not play "crash" or "hoverboard_break", and only ever flips the
obstacle's `honk_played` flag. -/
theorem obsAudioStage_neutral (g : GState) (ob1 : Obstacle) :
    (obsAudioStage g ob1).1.state = g.state ∧
    (obsAudioStage g ob1).1.player = g.player ∧
    (obsAudioStage g ob1).1.economy = g.economy ∧
    (obsAudioStage g ob1).1.active_powerups = g.active_powerups ∧
    countSound "crash" (obsAudioStage g ob1).1.events =
      countSound "crash" g.events ∧
    countSound "hoverboard_break" (obsAudioStage g ob1).1.events =
      countSound "hoverboard_break" g.events ∧
    (obsAudioStage g ob1).2.lane = ob1.lane ∧
    (obsAudioStage g ob1).2.distance = ob1.distance ∧
    (obsAudioStage g ob1).2.height = ob1.height ∧
    (obsAudioStage g ob1).2.active = ob1.active ∧
    (obsAudioStage g ob1).2.sound_tag = ob1.sound_tag := by
  unfold obsAudioStage
  rcases htag : ob1.sound_tag with _ | tag
  · simp [htag]
  · by_cases hk : ob1.kind = "train"
    · simp only [hk, if_true]
      by_cases hh : ob1.distance ≤ 20 ∧ ¬ ob1.honk_played = true
      · simp only [hh, if_true]
        refine ⟨?_, ?_, ?_, ?_, ?_, ?_, ?_, ?_, ?_, ?_, ?_⟩ <;>
          simp [playSoundG_fields, updateLoopPanG_fields,
            playSoundG_countSound, updateLoopPanG_countSound, htag]
      · simp only [hh, if_false]
        refine ⟨?_, ?_, ?_, ?_, ?_, ?_, ?_, ?_, ?_, ?_, ?_⟩ <;>
          simp [updateLoopPanG_fields, updateLoopPanG_countSound, htag]
    · simp only [hk, if_false]
      refine ⟨?_, ?_, ?_, ?_, ?_, ?_, ?_, ?_, ?_, ?_, ?_⟩ <;>
        simp [updateLoopG_fields, updateLoopG_countSound, htag]

/-! ## Lemmas about collision resolution -/

theorem handle_collision_jetpack (g : GState) (o : Obstacle)
    (hj : g.player.jetpack = true) : handle_collision g o = g := by
  unfold handle_collision
  rw [if_pos hj]

theorem handle_collision_shield (g : GState) (o : Obstacle)
    (hj : g.player.jetpack = false) (hh : g.player.hoverboard_active = true) :
    handle_collision g o =
      { g with
        player := { g.player with hoverboard_active := false },
        events := g.events ++ [Event.playSound "hoverboard_break" o.lane 0] } := by
  unfold handle_collision
  rw [if_neg (by simp [hj]), if_pos hh]
  rfl

theorem handle_collision_over (g : GState) (o : Obstacle)
    (hj : g.player.jetpack = false) (hh : g.player.hoverboard_active = false) :
    handle_collision g o =
      { g with
        state := GameState.GAME_OVER,
        events := g.events ++
          [Event.playSound "crash" o.lane 0, Event.stopMusic,
           Event.say ("Game Over. Score: " ++ toString g.score)] ++
          (if 0 < g.economy.keys then
            [Event.say "Press K to use a key and continue"] else []) } := by
  unfold handle_collision
  rw [if_neg (by simp [hj]), if_neg (by simp [hh])]
  by_cases hk : 0 < g.economy.keys
  · rw [if_pos (by simpa [sayG, stopMusicG, playSoundG] using hk),
      if_pos hk]
    simp [sayG, stopMusicG, playSoundG]
  · rw [if_neg (by simpa [sayG, stopMusicG, playSoundG] using hk),
      if_neg hk]
    simp [sayG, stopMusicG, playSoundG]

/-! ## Lemmas about the power-up ledger sweep -/

theorem teardown_ap (g : GState) (k : String) :
    (teardown g k).active_powerups = g.active_powerups := by
  unfold teardown stopLoopG
  split_ifs <;> rfl

theorem foldl_teardown_ap (ks : List String) (g : GState) :
    (ks.foldl teardown g).active_powerups = g.active_powerups := by
  induction ks generalizing g with
  | nil => rfl
  | cons k rest ih => rw [List.foldl_cons, ih, teardown_ap]

theorem update_powerups_ap (g : GState) (dt : ℚ) :
    (update_powerups g dt).active_powerups =
      (sweepVals g.active_powerups dt).filter (fun e => !decide (e.2 ≤ 0)) := by
  unfold update_powerups
  rw [foldl_teardown_ap]

theorem teardown_jetpack (g : GState) (k : String) :
    (teardown g k).player.jetpack =
      if k = "jetpack" then false else g.player.jetpack := by
  unfold teardown stopLoopG
  split_ifs <;> simp_all

theorem teardown_sneakers (g : GState) (k : String) :
    (teardown g k).player.super_sneakers =
      if k = "super_sneakers" then false else g.player.super_sneakers := by
  unfold teardown stopLoopG
  split_ifs <;> simp_all

theorem teardown_multiplier (g : GState) (k : String) :
    (teardown g k).multiplier =
      if k = "multiplier" then 1 else g.multiplier := by
  unfold teardown stopLoopG
  split_ifs <;> simp_all

theorem foldl_teardown_jetpack (ks : List String) (g : GState) :
    (ks.foldl teardown g).player.jetpack =
      if "jetpack" ∈ ks then false else g.player.jetpack := by
  induction ks generalizing g with
  | nil => simp
  | cons k rest ih =>
    rw [List.foldl_cons, ih, teardown_jetpack]
    by_cases hk : k = "jetpack" <;> by_cases hm : "jetpack" ∈ rest <;>
      simp [hk, hm, eq_comm]

theorem foldl_teardown_sneakers (ks : List String) (g : GState) :
    (ks.foldl teardown g).player.super_sneakers =
      if "super_sneakers" ∈ ks then false else g.player.super_sneakers := by
  induction ks generalizing g with
  | nil => simp
  | cons k rest ih =>
    rw [List.foldl_cons, ih, teardown_sneakers]
    by_cases hk : k = "super_sneakers" <;>
      by_cases hm : "super_sneakers" ∈ rest <;>
      simp [hk, hm, eq_comm]

theorem foldl_teardown_multiplier (ks : List String) (g : GState) :
    (ks.foldl teardown g).multiplier =
      if "multiplier" ∈ ks then 1 else g.multiplier := by
  induction ks generalizing g with
  | nil => simp
  | cons k rest ih =>
    rw [List.foldl_cons, ih, teardown_multiplier]
    by_cases hk : k = "multiplier" <;> by_cases hm : "multiplier" ∈ rest <;>
      simp [hk, hm, eq_comm]

theorem update_powerups_jetpack (g : GState) (dt : ℚ) :
    (update_powerups g dt).player.jetpack =
      if "jetpack" ∈ expiredOf g.active_powerups dt then false
      else g.player.jetpack := by
  unfold update_powerups
  rw [foldl_teardown_jetpack]

theorem update_powerups_sneakers (g : GState) (dt : ℚ) :
    (update_powerups g dt).player.super_sneakers =
      if "super_sneakers" ∈ expiredOf g.active_powerups dt then false
      else g.player.super_sneakers := by
  unfold update_powerups
  rw [foldl_teardown_sneakers]

theorem update_powerups_multiplier (g : GState) (dt : ℚ) :
    (update_powerups g dt).multiplier =
      if "multiplier" ∈ expiredOf g.active_powerups dt then 1
      else g.multiplier := by
  unfold update_powerups
  rw [foldl_teardown_multiplier]

theorem mem_expiredOf_none (k : String) (L : List (String × ℚ)) (dt : ℚ)
    (h : lfind k L = none) : k ∉ expiredOf L dt := by
  unfold expiredOf
  rw [← lfind_eq_none_iff]
  refine lfind_filter_none k _ _ ?_
  rw [lfind_sweepVals, h]
  rfl

theorem mem_expiredOf_some (k : String) (v : ℚ) (L : List (String × ℚ))
    (dt : ℚ) (hnd : (L.map Prod.fst).Nodup) (h : lfind k L = some v) :
    k ∈ expiredOf L dt ↔ v - dt ≤ 0 := by
  unfold expiredOf
  have hsw : lfind k (sweepVals L dt) = some (v - dt) := by
    rw [lfind_sweepVals, h]; rfl
  have hnd2 : ((sweepVals L dt).map Prod.fst).Nodup := by
    rw [sweepVals_keys]; exact hnd
  have hlf := lfind_filter_nodup k (v - dt) (fun e => decide (e.2 ≤ 0))
    (sweepVals L dt) hnd2 hsw
  simp only [decide_eq_true_eq] at hlf
  constructor
  · intro hmem
    by_contra hle
    rw [if_neg hle] at hlf
    exact ((lfind_eq_none_iff _ _).1 hlf) hmem
  · intro hle
    rw [if_pos hle] at hlf
    by_contra hmem
    rw [(lfind_eq_none_iff k _).2 hmem] at hlf
    exact Option.noConfusion hlf

theorem count_expiredOf_none (k : String) (L : List (String × ℚ)) (dt : ℚ)
    (h : lfind k L = none) : (expiredOf L dt).count k = 0 := by
  unfold expiredOf
  refine count_keys_filter_none k _ _ ?_
  rw [lfind_sweepVals, h]
  rfl

theorem count_expiredOf_some (k : String) (v : ℚ) (L : List (String × ℚ))
    (dt : ℚ) (hnd : (L.map Prod.fst).Nodup) (h : lfind k L = some v) :
    (expiredOf L dt).count k = if v - dt ≤ 0 then 1 else 0 := by
  unfold expiredOf
  have hsw : lfind k (sweepVals L dt) = some (v - dt) := by
    rw [lfind_sweepVals, h]; rfl
  have hnd2 : ((sweepVals L dt).map Prod.fst).Nodup := by
    rw [sweepVals_keys]; exact hnd
  have hcnt := count_keys_filter_some k (v - dt)
    (fun e => decide (e.2 ≤ 0)) (sweepVals L dt) hnd2 hsw
  simp only [decide_eq_true_eq] at hcnt
  exact hcnt

theorem lfind_update_powerups_none (g : GState) (dt : ℚ) (k : String)
    (h : lfind k g.active_powerups = none) :
    lfind k (update_powerups g dt).active_powerups = none := by
  rw [update_powerups_ap]
  refine lfind_filter_none k _ _ ?_
  rw [lfind_sweepVals, h]
  rfl

theorem lfind_update_powerups_some (g : GState) (dt : ℚ) (k : String)
    (v : ℚ) (hnd : (g.active_powerups.map Prod.fst).Nodup)
    (h : lfind k g.active_powerups = some v) :
    lfind k (update_powerups g dt).active_powerups =
      if v - dt ≤ 0 then none else some (v - dt) := by
  rw [update_powerups_ap]
  have hsw : lfind k (sweepVals g.active_powerups dt) = some (v - dt) := by
    rw [lfind_sweepVals, h]; rfl
  have hnd2 : ((sweepVals g.active_powerups dt).map Prod.fst).Nodup := by
    rw [sweepVals_keys]; exact hnd
  have hlf := lfind_filter_nodup k (v - dt) (fun e => !decide (e.2 ≤ 0))
    (sweepVals g.active_powerups dt) hnd2 hsw
  simp only [Bool.not_eq_true', decide_eq_false_iff_not] at hlf
  by_cases hle : v - dt ≤ 0
  · rw [hlf, if_neg (by simpa using hle), if_pos hle]
  · rw [hlf, if_pos hle, if_neg hle]

theorem update_powerups_nodup (g : GState) (dt : ℚ)
    (hnd : (g.active_powerups.map Prod.fst).Nodup) :
    ((update_powerups g dt).active_powerups.map Prod.fst).Nodup := by
  rw [update_powerups_ap]
  refine filter_keys_nodup _ _ ?_
  rw [sweepVals_keys]
  exact hnd

theorem expiry_absent (dts : List ℚ) (g : GState) (k : String)
    (h : lfind k g.active_powerups = none) :
    lfind k (runSweeps g dts).active_powerups = none ∧
    (allExpired g dts).count k = 0 := by
  induction dts generalizing g with
  | nil => exact ⟨h, rfl⟩
  | cons dt rest ih =>
    have hstep := lfind_update_powerups_none g dt k h
    obtain ⟨ih1, ih2⟩ := ih (update_powerups g dt) hstep
    refine ⟨ih1, ?_⟩
    simp only [allExpired, List.count_append, ih2,
      count_expiredOf_none k g.active_powerups dt h]

theorem expiry_main (dts : List ℚ) (g : GState) (k : String) (v : ℚ)
    (hnd : (g.active_powerups.map Prod.fst).Nodup)
    (hfind : lfind k g.active_powerups = some v) (hv : 0 < v)
    (hnn : ∀ d ∈ dts, 0 ≤ d) (hsum : v ≤ dts.sum) :
    lfind k (runSweeps g dts).active_powerups = none ∧
    (allExpired g dts).count k = 1 := by
  induction dts generalizing g v with
  | nil =>
    exfalso
    simp only [List.sum_nil] at hsum
    linarith
  | cons dt rest ih =>
    have hcnt := count_expiredOf_some k v g.active_powerups dt hnd hfind
    have hstep := lfind_update_powerups_some g dt k v hnd hfind
    by_cases hle : v - dt ≤ 0
    · rw [if_pos hle] at hstep
      obtain ⟨ha1, ha2⟩ := expiry_absent rest (update_powerups g dt) k hstep
      refine ⟨ha1, ?_⟩
      simp only [allExpired, List.count_append, ha2, hcnt, if_pos hle]
    · rw [if_neg hle] at hstep
      have hnd2 := update_powerups_nodup g dt hnd
      have hnn2 : ∀ d ∈ rest, 0 ≤ d :=
        fun d hd => hnn d (List.mem_cons_of_mem dt hd)
      have hdt : 0 ≤ dt := hnn dt (List.mem_cons_self dt rest)
      have hsum2 : v - dt ≤ rest.sum := by
        simp only [List.sum_cons] at hsum
        linarith
      obtain ⟨ih1, ih2⟩ := ih (update_powerups g dt) (v - dt) hnd2 hstep
        (by linarith [not_le.1 hle]) hnn2 hsum2
      refine ⟨ih1, ?_⟩
      simp only [allExpired, List.count_append, ih2, hcnt, if_neg hle]

/-! ## Preservation of the ledger/effect coherence invariant -/

theorem ledgerInv_update_powerups (g : GState) (dt : ℚ)
    (h : ledgerInv g) : ledgerInv (update_powerups g dt) := by
  obtain ⟨h1, h2, h3, h4, h5⟩ := h
  have flagStep : ∀ (b : Bool) (k : String),
      (b = true ↔ lmem k g.active_powerups = true) →
      ((if k ∈ expiredOf g.active_powerups dt then false else b) = true ↔
        lmem k (update_powerups g dt).active_powerups = true) := by
    intro b k hiff
    rcases hf : lfind k g.active_powerups with _ | v
    · have hne := mem_expiredOf_none k g.active_powerups dt hf
      have hupd := lfind_update_powerups_none g dt k hf
      rw [if_neg hne]
      simp only [lmem, hupd, Option.isSome_none]
      rw [hiff]
      simp [lmem, hf]
    · have hupd := lfind_update_powerups_some g dt k v h5 hf
      by_cases hle : v - dt ≤ 0
      · rw [if_pos ((mem_expiredOf_some k v g.active_powerups dt h5 hf).2 hle)]
        rw [if_pos hle] at hupd
        simp [lmem, hupd]
      · rw [if_neg (fun hmem =>
          hle ((mem_expiredOf_some k v g.active_powerups dt h5 hf).1 hmem))]
        rw [if_neg hle] at hupd
        simp only [lmem, hupd, Option.isSome_some]
        rw [hiff]
        simp [lmem, hf]
  refine ⟨?_, ?_, ?_, ?_, update_powerups_nodup g dt h5⟩
  · rw [update_powerups_jetpack]
    exact flagStep g.player.jetpack "jetpack" h1
  · rw [update_powerups_sneakers]
    exact flagStep g.player.super_sneakers "super_sneakers" h2
  · rw [update_powerups_multiplier]
    rcases hf : lfind "multiplier" g.active_powerups with _ | v
    · have hne := mem_expiredOf_none "multiplier" g.active_powerups dt hf
      have hupd := lfind_update_powerups_none g dt "multiplier" hf
      rw [if_neg hne]
      simp only [lmem, hupd, Option.isSome_none]
      rw [h3]
      simp [lmem, hf]
    · have hupd := lfind_update_powerups_some g dt "multiplier" v h5 hf
      by_cases hle : v - dt ≤ 0
      · rw [if_pos ((mem_expiredOf_some "multiplier" v g.active_powerups dt
          h5 hf).2 hle)]
        rw [if_pos hle] at hupd
        simp [lmem, hupd]
      · rw [if_neg (fun hmem => hle ((mem_expiredOf_some "multiplier" v
          g.active_powerups dt h5 hf).1 hmem))]
        rw [if_neg hle] at hupd
        simp only [lmem, hupd, Option.isSome_some]
        rw [h3]
        simp [lmem, hf]
  · rw [update_powerups_multiplier]
    by_cases hm : "multiplier" ∈ expiredOf g.active_powerups dt <;>
      simp [hm, h4]

theorem ledgerInv_runSweeps (dts : List ℚ) (g : GState)
    (h : ledgerInv g) : ledgerInv (runSweeps g dts) := by
  induction dts generalizing g with
  | nil => exact h
  | cons dt rest ih =>
    exact ih (update_powerups g dt) (ledgerInv_update_powerups g dt h)

theorem startLoopG_player (g : GState) (t n : String) (l : ℤ) (d : ℚ) :
    (startLoopG g t n l d).player = g.player :=
  (startLoopG_fields g t n l d).2.1

theorem startLoopG_ap (g : GState) (t n : String) (l : ℤ) (d : ℚ) :
    (startLoopG g t n l d).active_powerups = g.active_powerups :=
  (startLoopG_fields g t n l d).2.2.2.1

theorem startLoopG_mult (g : GState) (t n : String) (l : ℤ) (d : ℚ) :
    (startLoopG g t n l d).multiplier = g.multiplier :=
  (startLoopG_fields g t n l d).2.2.2.2.1

theorem ledgerInv_activate (g : GState) (p : PowerUp)
    (h : ledgerInv g) : ledgerInv (activate_powerup g p) := by
  obtain ⟨h1, h2, h3, h4, h5⟩ := h
  unfold activate_powerup
  split_ifs with k1 k2 k3 k4 k5 k6
  · refine ⟨?_, ?_, ?_, ?_, ?_⟩ <;>
      simp only [playSoundG, startLoopG_player, startLoopG_ap,
        startLoopG_mult, lmem]
    · simp [lfind_lset_self]
    · rw [lfind_lset_other "jetpack" "super_sneakers" (by decide)]
      exact h2
    · rw [lfind_lset_other "jetpack" "multiplier" (by decide)]
      exact h3
    · exact h4
    · exact lset_nodup _ _ _ h5
  · refine ⟨?_, ?_, ?_, ?_, ?_⟩ <;> simp only [playSoundG, lmem]
    · rw [lfind_lset_other "super_sneakers" "jetpack" (by decide)]
      exact h1
    · simp [lfind_lset_self]
    · rw [lfind_lset_other "super_sneakers" "multiplier" (by decide)]
      exact h3
    · exact h4
    · exact lset_nodup _ _ _ h5
  · refine ⟨?_, ?_, ?_, ?_, ?_⟩ <;>
      simp only [playSoundG, startLoopG_player, startLoopG_ap,
        startLoopG_mult, lmem]
    · rw [lfind_lset_other "magnet" "jetpack" (by decide)]
      exact h1
    · rw [lfind_lset_other "magnet" "super_sneakers" (by decide)]
      exact h2
    · rw [lfind_lset_other "magnet" "multiplier" (by decide)]
      exact h3
    · exact h4
    · exact lset_nodup _ _ _ h5
  · refine ⟨?_, ?_, ?_, ?_, ?_⟩ <;> simp only [playSoundG, lmem]
    · rw [lfind_lset_other "multiplier" "jetpack" (by decide)]
      exact h1
    · rw [lfind_lset_other "multiplier" "super_sneakers" (by decide)]
      exact h2
    · simp [lfind_lset_self]
    · right
      simp [lmem, lfind_lset_self]
    · exact lset_nodup _ _ _ h5
  · exact ⟨by simpa [playSoundG] using h1, by simpa [playSoundG] using h2,
      by simpa [playSoundG] using h3, by simpa [playSoundG] using h4,
      by simpa [playSoundG] using h5⟩
  · exact ⟨by simpa [playSoundG, sayG] using h1,
      by simpa [playSoundG, sayG] using h2,
      by simpa [playSoundG, sayG] using h3,
      by simpa [playSoundG, sayG] using h4,
      by simpa [playSoundG, sayG] using h5⟩
  · exact ⟨by simpa [playSoundG] using h1, by simpa [playSoundG] using h2,
      by simpa [playSoundG] using h3, by simpa [playSoundG] using h4,
      by simpa [playSoundG] using h5⟩

/-! ## The claims -/

/-- Claim C5, amended: along every sequence of jump/roll/update
operations (with the game's positive durations and non-negative frame
deltas), each of the jump, roll, and hoverboard timers keeps its active
flag true exactly when its remaining time is strictly positive.  (The
original claim's further clause — that the remaining time is never
negative, being clamped at the transition to inactive — is refuted by
`claim_C5_counterexample`: `Player.update` does not clamp.) -/
theorem claim_C5 (ops : List PlayerOp) (hv : ∀ op ∈ ops, opValid op) :
    timerInv (runOps Player.init ops) :=
  timerInv_runOps Player.init ops hv timerInv_init

theorem claim_C5_witness :
    timerInv (runOps Player.init
      [PlayerOp.jump 1, PlayerOp.update 1, PlayerOp.roll 1]) :=
  claim_C5 [PlayerOp.jump 1, PlayerOp.update 1, PlayerOp.roll 1] (by decide)

/-- Counterexample to claim C5 as stated: a jump with the configured
super-sneakers duration of `1.0` second followed by a two-second frame
leaves `jump_timer = -1 < 0` — the countdown goes negative and is not
clamped at the transition to inactive. -/
theorem claim_C5_counterexample :
    (runOps Player.init [PlayerOp.jump 1, PlayerOp.update 2]).jump_timer
        = -1 ∧
    (runOps Player.init [PlayerOp.jump 1, PlayerOp.update 2]).jump_timer
        < 0 ∧
    (runOps Player.init [PlayerOp.jump 1, PlayerOp.update 2]).jumping
        = false := by
  norm_num [runOps, applyOp, Player.jump, Player.update, Player.init]

/-- Claim C6: the package mixer maps pan `-0.8` at distance `0` to the
stereo gain pair `(1.0, 0.2)` via `left = 1 - max(0, pan)`,
`right = 1 + min(0, pan)`; at `distance = D_max` the distance volume
factor is `0`, so both final channel volumes vanish for every pan and
sfx volume; and the distance is clamped to `[0, D_max]` before the
linear falloff. -/
theorem claim_C6 (pan sfx distance : ℚ) :
    pan_to_stereo (-8/10) = (1, 2/10) ∧
    distance_to_volume 0 = 1 ∧
    distance_to_volume max_distance = 0 ∧
    channelVolumes pan max_distance sfx = (0, 0) ∧
    distance_to_volume distance =
      1 - max 0 (min max_distance distance) / max_distance := by
  have h0 : distance_to_volume max_distance = 0 := by
    norm_num [distance_to_volume, max_distance]
  refine ⟨by norm_num [pan_to_stereo],
    by norm_num [distance_to_volume, max_distance], h0, ?_, ?_⟩
  · simp [channelVolumes, h0]
  · unfold distance_to_volume
    have h1 : max 0 (min max_distance distance) ≤ max_distance :=
      max_le (by norm_num [max_distance]) (min_le_left _ _)
    have h2 : max 0 (min max_distance distance) / max_distance ≤ 1 := by
      rw [div_le_one (by norm_num [max_distance])]
      exact h1
    exact max_eq_right (by linarith)

/-- Claim C7, amended: `WordHunt.collect` signals completion exactly
when the collected count reaches the target count — the letters
themselves are never compared — and completion resets the collected
progress to empty; a shorter sequence never completes and simply
appends.  In `update_letters`, the 500-coin completion reward is
granted exactly when that signal fires, hence once per full cycle.
(The original claim's requirement that a right-length but wrong-letter
sequence must not complete is refuted by `claim_C7_counterexample`.) -/
theorem claim_C7 (w : WordHunt) (letter : String) (g : GState)
    (l : LetterCollectible) (dt : ℚ) (hact : l.active = true)
    (harr : l.distance - g.speed * dt ≤ 0) (hlane : l.lane = g.player.lane) :
    ((w.collect letter).2 = true ↔ w.collected.length + 1 = w.letters.length) ∧
    ((w.collect letter).2 = true → (w.collect letter).1.collected = []) ∧
    ((w.collect letter).2 = false →
      (w.collect letter).1.collected = w.collected ++ [letter]) ∧
    (stepLetter g l dt).1.economy.coins =
      (if (g.word_hunt.collect l.letter).2 then g.economy.coins + 500
       else g.economy.coins) := by
  refine ⟨?_, ?_, ?_, ?_⟩
  · by_cases h : w.collected.length + 1 = w.letters.length <;>
      simp [WordHunt.collect, h]
  · by_cases h : w.collected.length + 1 = w.letters.length <;>
      simp [WordHunt.collect, h]
  · by_cases h : w.collected.length + 1 = w.letters.length <;>
      simp [WordHunt.collect, h]
  · unfold stepLetter
    simp only [hact, not_true, if_false, ite_false, ite_true, harr, hlane]
    rcases hcol : (g.word_hunt.collect l.letter).2 with _ | _ <;>
      simp_all [sayG, if_pos, if_neg]

/-- Counterexample to claim C7 as stated: with target sequence
`H U N T` and collected progress `H H N` (reachable: two letters
spawned before the first arrives both carry the cycle's current
letter), collecting `T` completes the hunt even though the collected
sequence `H H N T` differs from the target — completion checks only
the count, not the order/content. -/
theorem claim_C7_counterexample :
    ((WordHunt.mk ["H", "U", "N", "T"] ["H", "H", "N"]).collect "T").2
        = true ∧
    ["H", "H", "N"] ++ ["T"] ≠ ["H", "U", "N", "T"] := by
  decide

/-- Claim C8: `AchievementSystem.check` evaluates in the fixed priority
order jump count, coin total, score; when all three thresholds are met
at once only the highest-priority locked achievement unlocks in that
call, the rest following on later calls; and an achievement that is
already unlocked is never returned again and its flag never clears. -/
theorem claim_C8 (s sOther : Stats) (u : Unlocked)
    (hj : s.jumps ≥ 100) (hc : s.total_coins ≥ 5000)
    (hs : s.score ≥ 100000) :
    achievementCheck { highJumper := false, goldDigger := false, marathon := false } s =
      (some "High Jumper",
       { highJumper := true, goldDigger := false, marathon := false }) ∧
    achievementCheck { highJumper := true, goldDigger := false, marathon := false } s =
      (some "Gold Digger",
       { highJumper := true, goldDigger := true, marathon := false }) ∧
    achievementCheck { highJumper := true, goldDigger := true, marathon := false } s =
      (some "Marathon",
       { highJumper := true, goldDigger := true, marathon := true }) ∧
    (u.highJumper = true →
      (achievementCheck u sOther).1 ≠ some "High Jumper" ∧
      (achievementCheck u sOther).2.highJumper = true) ∧
    (u.goldDigger = true →
      (achievementCheck u sOther).1 ≠ some "Gold Digger" ∧
      (achievementCheck u sOther).2.goldDigger = true) ∧
    (u.marathon = true →
      (achievementCheck u sOther).1 ≠ some "Marathon" ∧
      (achievementCheck u sOther).2.marathon = true) := by
  refine ⟨?_, ?_, ?_, ?_, ?_, ?_⟩
  · simp [achievementCheck, hj]
  · simp [achievementCheck, hj, hc]
  · simp [achievementCheck, hj, hc, hs]
  · intro hu
    unfold achievementCheck
    split_ifs with h1 h2 h3
    · exact absurd hu (by simpa using h1.1)
    · exact ⟨fun hcontra => by simp at hcontra, by simpa using hu⟩
    · exact ⟨fun hcontra => by simp at hcontra, by simpa using hu⟩
    · exact ⟨fun hcontra => by simp at hcontra, by simpa using hu⟩
  · intro hu
    unfold achievementCheck
    split_ifs with h1 h2 h3
    · exact ⟨fun hcontra => by simp at hcontra, by simpa using hu⟩
    · exact absurd hu (by simpa using h2.1)
    · exact ⟨fun hcontra => by simp at hcontra, by simpa using hu⟩
    · exact ⟨fun hcontra => by simp at hcontra, by simpa using hu⟩
  · intro hu
    unfold achievementCheck
    split_ifs with h1 h2 h3
    · exact ⟨fun hcontra => by simp at hcontra, by simpa using hu⟩
    · exact ⟨fun hcontra => by simp at hcontra, by simpa using hu⟩
    · exact absurd hu (by simpa using h3.1)
    · exact ⟨fun hcontra => by simp at hcontra, by simpa using hu⟩

theorem claim_C8_witness :
    achievementCheck { highJumper := false, goldDigger := false, marathon := false }
        { jumps := 100, total_coins := 5000, score := 100000 } =
      (some "High Jumper",
       { highJumper := true, goldDigger := false, marathon := false }) ∧
    (achievementCheck { highJumper := true, goldDigger := true, marathon := true }
        { jumps := 100, total_coins := 5000, score := 100000 }).1 ≠
      some "High Jumper" :=
  ⟨(claim_C8 { jumps := 100, total_coins := 5000, score := 100000 }
      { jumps := 100, total_coins := 5000, score := 100000 }
      { highJumper := true, goldDigger := true, marathon := true }
      (by decide) (by decide) (by decide)).1,
   ((claim_C8 { jumps := 100, total_coins := 5000, score := 100000 }
      { jumps := 100, total_coins := 5000, score := 100000 }
      { highJumper := true, goldDigger := true, marathon := true }
      (by decide) (by decide) (by decide)).2.2.2.1 rfl).1⟩

/-- Claim C9: `Economy.buy_upgrade` with insufficient coins fails and
mutates nothing; with sufficient coins it debits exactly the listed
cost and raises the target power-up's duration by the fixed `5.0`
increment, leaving keys and mystery boxes alone.  `buy_mystery_box`
debits only on success.  No purchase can drive coins, keys, or mystery
boxes negative. -/
theorem claim_C9 (e : Economy) (k : String) (c : ℤ)
    (hc : upgrade_costs k = some c) (hcoins : 0 ≤ e.coins)
    (hkeys : 0 ≤ e.keys) (hboxes : 0 ≤ e.mystery_boxes) :
    (e.coins < c → e.buy_upgrade k = (false, e)) ∧
    (c ≤ e.coins →
      (e.buy_upgrade k).1 = true ∧
      (e.buy_upgrade k).2.coins = e.coins - c ∧
      lfind k (e.buy_upgrade k).2.powerup_durations =
        some ((lfind k e.powerup_durations).getD 10 + 5) ∧
      (e.buy_upgrade k).2.keys = e.keys ∧
      (e.buy_upgrade k).2.mystery_boxes = e.mystery_boxes) ∧
    (e.coins < mystery_box_cost → e.buy_mystery_box = (false, e)) ∧
    (mystery_box_cost ≤ e.coins →
      e.buy_mystery_box =
        (true, { e with
          coins := e.coins - mystery_box_cost,
          mystery_boxes := e.mystery_boxes + 1 })) ∧
    (0 ≤ (e.buy_upgrade k).2.coins ∧ 0 ≤ (e.buy_upgrade k).2.keys ∧
      0 ≤ (e.buy_upgrade k).2.mystery_boxes) ∧
    (0 ≤ (e.buy_mystery_box).2.coins ∧ 0 ≤ (e.buy_mystery_box).2.keys ∧
      0 ≤ (e.buy_mystery_box).2.mystery_boxes) := by
  have hcpos : 0 < c := by
    unfold upgrade_costs at hc
    split_ifs at hc <;> simp_all <;> omega
  have hgetD : (upgrade_costs k).getD 0 = c := by rw [hc]; rfl
  refine ⟨?_, ?_, ?_, ?_, ?_, ?_⟩
  · intro hlt
    simp only [Economy.buy_upgrade, hgetD]
    rw [if_neg (by omega)]
  · intro hge
    simp only [Economy.buy_upgrade, hgetD]
    rw [if_pos ⟨hge, hcpos⟩]
    exact ⟨rfl, rfl, lfind_lset_self k _ _, rfl, rfl⟩
  · intro hlt
    unfold Economy.buy_mystery_box
    rw [if_neg (by omega)]
  · intro hge
    unfold Economy.buy_mystery_box
    rw [if_pos hge]
  · simp only [Economy.buy_upgrade, hgetD]
    split_ifs with h
    · simp only [hgetD] at h
      refine ⟨?_, ?_, ?_⟩ <;> simp <;> omega
    · exact ⟨hcoins, hkeys, hboxes⟩
  · unfold Economy.buy_mystery_box
    split_ifs with h
    · unfold mystery_box_cost at h
      refine ⟨?_, ?_, ?_⟩ <;> simp [mystery_box_cost] <;> omega
    · exact ⟨hcoins, hkeys, hboxes⟩

theorem claim_C9_witness :
    ({ Economy.init with coins := 520 } : Economy).buy_upgrade "jetpack"
        |>.2.coins = 20 ∧
    lfind "jetpack"
        (({ Economy.init with coins := 520 } : Economy).buy_upgrade
          "jetpack").2.powerup_durations = some 15 := by
  have h := claim_C9 { Economy.init with coins := 520 } "jetpack" 500
    (by decide) (by decide) (by decide) (by decide)
  refine ⟨?_, ?_⟩
  · have := (h.2.1 (by decide)).2.1
    simpa using this
  · have h2 := (h.2.1 (by decide)).2.2.1
    rw [h2]
    norm_num [Economy.init, powerup_base_duration, lfind]

/-- Claim C10: `continue_run_with_key` with no key held changes nothing
at all (the state stays as it was, GAME_OVER included); with a key held
it consumes exactly one key, resumes the run, and activates the
hoverboard with the hard-coded `3.0`-second timer — independent of the
economy's upgradeable hoverboard duration, which it neither reads nor
writes. -/
theorem claim_C10 (g : GState) :
    (g.economy.keys ≤ 0 → continue_run_with_key g = g) ∧
    (0 < g.economy.keys →
      (continue_run_with_key g).economy.keys = g.economy.keys - 1 ∧
      (continue_run_with_key g).state = GameState.RUNNING ∧
      (continue_run_with_key g).player.hoverboard_active = true ∧
      (continue_run_with_key g).player.hoverboard_timer = 3 ∧
      (continue_run_with_key g).economy.powerup_durations =
        g.economy.powerup_durations ∧
      (continue_run_with_key g).economy.coins = g.economy.coins) := by
  constructor
  · intro hle
    unfold continue_run_with_key
    rw [if_pos hle]
  · intro hgt
    unfold continue_run_with_key
    rw [if_neg (by omega)]
    simp [sayG, playSoundG]

theorem claim_C10_witness :
    (continue_run_with_key
        { gEx with
          state := GameState.GAME_OVER,
          economy := { gEx.economy with keys := 2 } }).state =
      GameState.RUNNING ∧
    (continue_run_with_key
        { gEx with
          state := GameState.GAME_OVER,
          economy := { gEx.economy with keys := 2 } }).player.hoverboard_timer
      = 3 ∧
    continue_run_with_key gEx = gEx := by
  refine ⟨?_, ?_, ?_⟩
  · exact ((claim_C10 _).2 (by decide)).2.1
  · exact ((claim_C10 _).2 (by decide)).2.2.2.1
  · exact (claim_C10 gEx).1 (by decide)

/-- Claim C2: collision resolution priority.  With the jetpack flag set
an obstacle collision changes nothing at all (never GAME_OVER, the
hoverboard is not consumed).  Otherwise an active hoverboard absorbs
exactly one collision: only that flag is cleared (plus a shield-break
cue), everything else — the game state included — stays put, and a
second collision in the resulting shieldless state goes to GAME_OVER.
Otherwise the state becomes GAME_OVER and the key-continue option is
announced if and only if the player holds at least one key. -/
theorem claim_C2 (g : GState) (o o2 : Obstacle) :
    (g.player.jetpack = true → handle_collision g o = g) ∧
    (g.player.jetpack = false → g.player.hoverboard_active = true →
      handle_collision g o =
        { g with
          player := { g.player with hoverboard_active := false },
          events := g.events ++
            [Event.playSound "hoverboard_break" o.lane 0] } ∧
      (handle_collision (handle_collision g o) o2).state =
        GameState.GAME_OVER) ∧
    (g.player.jetpack = false → g.player.hoverboard_active = false →
      handle_collision g o =
        { g with
          state := GameState.GAME_OVER,
          events := g.events ++
            [Event.playSound "crash" o.lane 0, Event.stopMusic,
             Event.say ("Game Over. Score: " ++ toString g.score)] ++
            (if 0 < g.economy.keys then
              [Event.say "Press K to use a key and continue"] else []) }) := by
  refine ⟨fun hj => handle_collision_jetpack g o hj, fun hj hh => ⟨?_, ?_⟩,
    fun hj hh => handle_collision_over g o hj hh⟩
  · exact handle_collision_shield g o hj hh
  · rw [handle_collision_shield g o hj hh,
      handle_collision_over _ o2 (by simpa using hj) (by simp)]

theorem claim_C2_witness :
    handle_collision
        { gEx with player := { gEx.player with jetpack := true } }
        { lane := 1, distance := 0, kind := "barrier", height := "low",
          active := true, sound_tag := none, honk_played := false } =
      { gEx with player := { gEx.player with jetpack := true } } :=
  (claim_C2 { gEx with player := { gEx.player with jetpack := true } }
    { lane := 1, distance := 0, kind := "barrier", height := "low",
      active := true, sound_tag := none, honk_played := false }
    { lane := 1, distance := 0, kind := "barrier", height := "low",
      active := true, sound_tag := none, honk_played := false }).1 rfl

theorem claim_C7_witness :
    (stepLetter gEx
        { lane := 1, distance := 10, letter := "H", active := true }
        1).1.economy.coins =
      (if (gEx.word_hunt.collect "H").2 then gEx.economy.coins + 500
       else gEx.economy.coins) :=
  (claim_C7 gEx.word_hunt "H" gEx
      { lane := 1, distance := 10, letter := "H", active := true } 1 rfl
      (by norm_num [gEx]) rfl).2.2.2

/-- Claim C1: for an obstacle whose distance reaches `<= 0` in the
player's lane while the game is RUNNING, with jetpack and hoverboard
inactive: a `low` obstacle with `jumping` or a `high` obstacle with
`rolling` passes through — no collision resolution is invoked (state
stays RUNNING, player and economy untouched, no crash or shield-break
cue); any other combination transitions the state to GAME_OVER with
exactly one crash cue at that arrival.  Either way the obstacle is
deactivated, and stepping an inactive obstacle is the identity, so the
transition fires exactly once per obstacle. -/
theorem claim_C1 (g gAny : GState) (ob obAny : Obstacle) (dt dtAny : ℚ)
    (hact : ob.active = true)
    (harr : ob.distance - g.speed * dt ≤ 0)
    (hlane : ob.lane = g.player.lane)
    (hrun : g.state = GameState.RUNNING)
    (hjet : g.player.jetpack = false)
    (hhov : g.player.hoverboard_active = false) :
    ((ob.height = "low" ∧ g.player.jumping = true) ∨
        (ob.height = "high" ∧ g.player.rolling = true) →
      (stepObstacle g ob dt).1.state = GameState.RUNNING ∧
      (stepObstacle g ob dt).1.player = g.player ∧
      (stepObstacle g ob dt).1.economy = g.economy ∧
      countSound "crash" (stepObstacle g ob dt).1.events =
        countSound "crash" g.events ∧
      countSound "hoverboard_break" (stepObstacle g ob dt).1.events =
        countSound "hoverboard_break" g.events ∧
      (stepObstacle g ob dt).2.active = false) ∧
    (¬ ((ob.height = "low" ∧ g.player.jumping = true) ∨
        (ob.height = "high" ∧ g.player.rolling = true)) →
      (stepObstacle g ob dt).1.state = GameState.GAME_OVER ∧
      countSound "crash" (stepObstacle g ob dt).1.events =
        countSound "crash" g.events + 1 ∧
      (stepObstacle g ob dt).2.active = false) ∧
    (obAny.active = false → stepObstacle gAny obAny dtAny = (gAny, obAny)) := by
  obtain ⟨hA1, hA2, hA3, hA4, hA5, hA6, hB1, hB2, hB3, hB4, hB5⟩ :=
    obsAudioStage_neutral g { ob with distance := ob.distance - g.speed * dt }
  set r := obsAudioStage g { ob with distance := ob.distance - g.speed * dt }
    with hrdef
  have hB1' : r.2.lane = ob.lane := by rw [hB1]
  have hB2' : r.2.distance = ob.distance - g.speed * dt := by rw [hB2]
  have hB3' : r.2.height = ob.height := by rw [hB3]
  have hg2 : ∃ g2 : GState,
      (match ({ r.2 with active := false } : Obstacle).sound_tag with
        | none => r.1
        | some tag => stopLoopG r.1 tag) = g2 ∧
      g2.state = g.state ∧ g2.player = g.player ∧ g2.economy = g.economy ∧
      countSound "crash" g2.events = countSound "crash" g.events ∧
      countSound "hoverboard_break" g2.events =
        countSound "hoverboard_break" g.events := by
    rcases hst : r.2.sound_tag with _ | tag
    · exact ⟨r.1, by simp [hst], hA1, hA2, hA3, hA5, hA6⟩
    · refine ⟨stopLoopG r.1 tag, by simp [hst], ?_, ?_, ?_, ?_, ?_⟩
      · rw [(stopLoopG_fields r.1 tag).1, hA1]
      · rw [(stopLoopG_fields r.1 tag).2.1, hA2]
      · rw [(stopLoopG_fields r.1 tag).2.2.1, hA3]
      · rw [stopLoopG_countSound, hA5]
      · rw [stopLoopG_countSound, hA6]
  obtain ⟨g2, hg2eq, hg2s, hg2p, hg2e, hg2c1, hg2c2⟩ := hg2
  have hstep : stepObstacle g ob dt =
      (if ob.height = "low" ∧ g.player.jumping = true then
        (g2, { r.2 with active := false })
      else if ob.height = "high" ∧ g.player.rolling = true then
        (g2, { r.2 with active := false })
      else (handle_collision g2 { r.2 with active := false },
            { r.2 with active := false })) := by
    unfold stepObstacle
    rw [if_neg (by simp [hact])]
    simp only [← hrdef]
    rw [if_pos (by rw [hB2']; exact harr)]
    simp only [hg2eq]
    rw [if_pos (by simpa [hB1', hg2p] using hlane)]
    simp only [hB3', hg2p]
  refine ⟨?_, ?_, ?_⟩
  · intro hcond
    have hres : stepObstacle g ob dt = (g2, { r.2 with active := false }) := by
      rw [hstep]
      rcases hcond with ⟨hh, hj⟩ | ⟨hh, hj⟩
      · rw [if_pos ⟨hh, hj⟩]
      · rw [if_neg ?hne, if_pos ⟨hh, hj⟩]
        case hne =>
          rintro ⟨h1, _⟩
          rw [hh] at h1
          exact absurd h1 (by decide)
    rw [hres]
    exact ⟨hg2s.trans hrun, hg2p, hg2e, hg2c1, hg2c2, rfl⟩
  · intro hncond
    have hres : stepObstacle g ob dt =
        (handle_collision g2 { r.2 with active := false },
         { r.2 with active := false }) := by
      rw [hstep, if_neg (fun hx => hncond (Or.inl hx)),
        if_neg (fun hx => hncond (Or.inr hx))]
    have hov := handle_collision_over g2 { r.2 with active := false }
      (by rw [hg2p]; exact hjet) (by rw [hg2p]; exact hhov)
    rw [hres, hov]
    refine ⟨rfl, ?_, rfl⟩
    simp only [countSound_append, hg2c1]
    by_cases hk : 0 < g2.economy.keys <;>
      simp [hk, countSound]
  · intro h
    simp [stepObstacle, h]

theorem claim_C1_witness :
    (stepObstacle gEx
        { lane := 1, distance := 10, kind := "barrier", height := "low",
          active := true, sound_tag := none, honk_played := false }
        1).1.state = GameState.GAME_OVER ∧
    (stepObstacle gEx
        { lane := 1, distance := 10, kind := "barrier", height := "low",
          active := true, sound_tag := none, honk_played := false }
        1).2.active = false :=
  ⟨((claim_C1 gEx gEx
      { lane := 1, distance := 10, kind := "barrier", height := "low",
        active := true, sound_tag := none, honk_played := false }
      { lane := 1, distance := 10, kind := "barrier", height := "low",
        active := true, sound_tag := none, honk_played := false } 1 1 rfl
      (by norm_num [gEx]) rfl rfl rfl rfl).2.1 (by decide)).1,
   ((claim_C1 gEx gEx
      { lane := 1, distance := 10, kind := "barrier", height := "low",
        active := true, sound_tag := none, honk_played := false }
      { lane := 1, distance := 10, kind := "barrier", height := "low",
        active := true, sound_tag := none, honk_played := false } 1 1 rfl
      (by norm_num [gEx]) rfl rfl rfl rfl).2.1 (by decide)).2.2⟩

/-- Claim C3, amended: in the package (`game.py`), a coin reaching
distance `<= 0` during `update_coins` is collected exactly when its
lane equals the player's lane or a `magnet` entry is in the active
power-up ledger at that instant — magnet overrides lane equality — and
a coin that has not yet arrived changes nothing whatever the magnet
state, so the package collects only at arrival.  (The original claim's
clause that magnet never collects at any other time than a coin's
arrival does not hold of the legacy single-file build, whose frame
update collects one coin per frame while magnet is active:
`claim_C3_counterexample`.) -/
theorem claim_C3 (g : GState) (c : CoinCollectible) (dt : ℚ)
    (hact : c.active = true) :
    (c.distance - g.speed * dt ≤ 0 →
      ((stepCoin g c dt).1.economy.coins = g.economy.coins + 1 ↔
        (c.lane = g.player.lane ∨ lmem "magnet" g.active_powerups = true))) ∧
    (¬ (c.distance - g.speed * dt ≤ 0) →
      (stepCoin g c dt).1 = g ∧ (stepCoin g c dt).2.active = true) := by
  constructor
  · intro harr
    unfold stepCoin
    rw [if_neg (by simp [hact]), if_pos (by simpa using harr)]
    by_cases hcol : c.lane = g.player.lane ∨ lmem "magnet" g.active_powerups = true
    · rw [if_pos (by simpa using hcol)]
      simp only [collect_coin, playSoundG]
      exact iff_of_true (by simp) hcol
    · rw [if_neg (by simpa using hcol)]
      refine iff_of_false ?_ hcol
      simp
  · intro hfar
    unfold stepCoin
    rw [if_neg (by simp [hact]), if_neg (by simpa using hfar)]
    exact ⟨rfl, hact⟩

theorem claim_C3_witness :
    (stepCoin { gEx with active_powerups := [("magnet", 10)] }
        { lane := 0, distance := 10, active := true } 1).1.economy.coins =
      { gEx with active_powerups := [("magnet", 10)] }.economy.coins + 1 :=
  ((claim_C3 { gEx with active_powerups := [("magnet", 10)] }
      { lane := 0, distance := 10, active := true } 1 rfl).1
      (by norm_num [gEx])).2 (Or.inr (by decide))

/-- Counterexample to claim C3 as stated: in the legacy build
(`blind_surfers.py`), one frame update of a state holding a `magnet`
ledger entry and containing no coin entity at all (the legacy build has
no coin entities anywhere) banks a coin and plays the collect cue —
magnet collects a coin at a time that is not any coin's arrival
instant, i.e. continuously, once per frame. -/
theorem claim_C3_counterexample :
    (Legacy.update lgEx 1 drEx).economy.coins = 1 ∧
    (Legacy.update lgEx 1 drEx).stats.total_coins = 1 ∧
    countSound "coin_collect" (Legacy.update lgEx 1 drEx).events = 1 ∧
    lgEx.economy.coins = 0 := by
  norm_num [Legacy.update, Legacy.update_powerups, sweepVals, expiredOf,
    Legacy.update_obstacles, Legacy.update_powerup_objects,
    Legacy.update_letters, Legacy.update_score, Legacy.collect_coin,
    Legacy.achCheckL, achievementCheck, lgEx, drEx, lmem, lfind, pyInt,
    Legacy.playSoundL, Player.update, countSound, countSound_append]

/-- Claim C4: a ledger entry holding remaining duration `d > 0`, after
expiry sweeps (`update_powerups`) whose non-negative frame deltas total
at least `d`, has been removed, and its kind appears exactly once in
the teardown sequence the sweeps execute — the kind-specific teardown
(flag clear / loop stop / multiplier reset, dispatched once per entry
of that list) runs exactly once.  Moreover the ledger-iff-effect
coherence (entry exists iff the corresponding player flag / multiplier
effect is active, with the dict's unique keys) is preserved by every
expiry sweep and by every pickup activation. -/
theorem claim_C4 (g : GState) (k : String) (v : ℚ) (dts : List ℚ)
    (dt : ℚ) (p : PowerUp) (hInv : ledgerInv g)
    (hfind : lfind k g.active_powerups = some v) (hv : 0 < v)
    (hnn : ∀ d ∈ dts, 0 ≤ d) (hsum : v ≤ dts.sum) :
    lfind k (runSweeps g dts).active_powerups = none ∧
    (allExpired g dts).count k = 1 ∧
    ledgerInv (runSweeps g dts) ∧
    ledgerInv (update_powerups g dt) ∧
    ledgerInv (activate_powerup g p) := by
  obtain ⟨hm, hc⟩ := expiry_main dts g k v hInv.2.2.2.2 hfind hv hnn hsum
  exact ⟨hm, hc, ledgerInv_runSweeps dts g hInv,
    ledgerInv_update_powerups g dt hInv, ledgerInv_activate g p hInv⟩

theorem claim_C4_witness :
    lfind "jetpack"
        (runSweeps
          { gEx with
            active_powerups := [("jetpack", 5)],
            player := { Player.init with jetpack := true },
            loops := ["jetpack"] }
          [6]).active_powerups = none ∧
    (allExpired
        { gEx with
          active_powerups := [("jetpack", 5)],
          player := { Player.init with jetpack := true },
          loops := ["jetpack"] }
        [6]).count "jetpack" = 1 :=
  ⟨(claim_C4
      { gEx with
        active_powerups := [("jetpack", 5)],
        player := { Player.init with jetpack := true },
        loops := ["jetpack"] }
      "jetpack" 5 [6] 1
      { lane := 1, distance := 0, kind := "magnet", active := true }
      (by decide) (by decide) (by decide) (by decide)
      (by norm_num [List.sum_cons, List.sum_nil])).1,
   (claim_C4
      { gEx with
        active_powerups := [("jetpack", 5)],
        player := { Player.init with jetpack := true },
        loops := ["jetpack"] }
      "jetpack" 5 [6] 1
      { lane := 1, distance := 0, kind := "magnet", active := true }
      (by decide) (by decide) (by decide) (by decide)
      (by norm_num [List.sum_cons, List.sum_nil])).2.1⟩

end BlindSurfers
